import Mathlib

/-!
# Chaos-experiment resolvers (chaoscenter/graphql/server/graph)

A shallow embedding of `chaos_experiment.resolvers.go`: the five mutation
resolvers and the three query resolvers, each of which asks
`authorization.ValidateRole` for a verdict, delegates to the experiment
handler and, for `CreateChaosExperiment` only, to the experiment-run handler.

The collaborators live outside the file, so they are fields of a record the
resolvers are run against. They are state transformers on an arbitrary
collaborator state `σ` (database, scheduler, the process-wide
`data_store.Store` handle), and every collaborator call a resolver makes is
appended, with its arguments and its outcome, to a call record, so that
"which calls were made, with what, in what order" is a statement about a list.
-/

namespace Litmus

/-! ## Go values -/

/-- Go `error` value as far as this file and its callers observe one: the
dynamic type behind the interface and the text `Error()` returns. Two errors
of the same type and text are the same value here; the address of an
`*errors.errorString` is not part of the model. -/
structure GoError where
  dynType : String
  msg : String
deriving DecidableEq, Repr

/-- Method `Error()` of the `error` interface. -/
def GoError.Error (e : GoError) : String := e.msg

/-- Standard library `errors.New`: an `*errors.errorString` holding `text`. -/
def errors.New (text : String) : GoError := ⟨"*errors.errorString", text⟩

/-- Request-scoped `context.Context`; the caller's credentials travel in it. -/
structure context.Context where
  token : String
deriving DecidableEq, Repr

/-- Element values of the `bson.D` filter the resolver builds. -/
inductive bson.Value where
  | str (s : String)
  | bool (b : Bool)
deriving DecidableEq, Repr

/-- Ordered document `bson.D`: key/value pairs. -/
abbrev bson.D := List (String × bson.Value)

/-! ## Package `model` (declared outside this file)

Only the fields the resolvers read are named; the rest of each payload is
carried as data the resolvers never inspect. -/

/-- Input `model.ChaosExperimentRequest`; `ExperimentID` is a `*string` and
`RunExperiment` a `*bool`, so both may be nil. -/
structure model.ChaosExperimentRequest where
  ExperimentID : Option String
  RunExperiment : Option Bool
  ExperimentName : String
  CronSyntax : String
  ExperimentManifest : String
deriving DecidableEq, Repr

/-- Result `model.ChaosExperimentResponse` of create and update. -/
structure model.ChaosExperimentResponse where
  ExperimentID : String
  ExperimentName : String
  CronSyntax : String
deriving DecidableEq, Repr

/-- Input `model.SaveChaosExperimentRequest`. -/
structure model.SaveChaosExperimentRequest where
  ID : String
  Name : String
  Manifest : String
deriving DecidableEq, Repr

/-- Input `model.ListExperimentRequest`; `ExperimentIDs` is a `[]*string`. -/
structure model.ListExperimentRequest where
  ExperimentIDs : List (Option String)
deriving DecidableEq, Repr

/-- Result `model.GetExperimentResponse`. -/
structure model.GetExperimentResponse where
  ExperimentID : String
  CronSyntax : String
deriving DecidableEq, Repr

/-- Result `model.ListExperimentResponse`. -/
structure model.ListExperimentResponse where
  TotalNoOfExperiments : Nat
  ExperimentIDs : List String
deriving DecidableEq, Repr

/-- Result `model.GetExperimentStatsResponse`. -/
structure model.GetExperimentStatsResponse where
  TotalExperiments : Nat
deriving DecidableEq, Repr

/-- Result `model.RunChaosExperimentResponse` of a one-shot run; the resolver
discards it. -/
structure model.RunChaosExperimentResponse where
  NotifyID : String
deriving DecidableEq, Repr

/-- The persisted experiment document `GetDBExperiment` returns by value; the
resolver reads `CronSyntax` and `ExperimentID`. -/
structure StoredExperiment where
  ExperimentID : String
  ProjectID : String
  CronSyntax : String
  IsRemoved : Bool
deriving DecidableEq, Repr

/-! ## Package `authorization` (declared outside this file) -/

/-- Keys of `authorization.MutationRbacRules` that this file indexes with. -/
inductive authorization.RoleQuery where
  | CreateEnvironment
  | CreateChaosWorkFlow
  | ReRunChaosWorkFlow
  | DeleteChaosWorkflow
  | UpdateChaosWorkflow
  | ListWorkflow
deriving DecidableEq, Repr

/-! ## Logging -/

/-- Values placed in `logrus.Fields` by the resolvers. -/
inductive LogValue where
  | str (s : String)
  | optStr (s : Option String)
  | strs (l : List (Option String))
deriving DecidableEq, Repr

/-- Level of a log line. -/
inductive LogLevel where
  | info
  | error
deriving DecidableEq, Repr

/-- One line written through `logrus.WithFields(...)`. -/
structure LogEntry where
  level : LogLevel
  fields : List (String × LogValue)
  message : String
deriving DecidableEq, Repr

/-! ## Collaborator calls -/

/-- One collaborator call: which function, its arguments (the context and the
`data_store.Store` handle apart), and what it returned. -/
inductive Call where
  | ValidateRole (projectID : String) (rule : authorization.RoleQuery)
      (invitation : String) (err : Option GoError)
  | CreateChaosExperiment (request : model.ChaosExperimentRequest) (projectID : String)
      (out : Option model.ChaosExperimentResponse × Option GoError)
  | GetDBExperiment (query : bson.D) (out : StoredExperiment × Option GoError)
  | SaveChaosExperiment (request : model.SaveChaosExperimentRequest) (projectID : String)
      (out : String × Option GoError)
  | UpdateChaosExperiment (request : model.ChaosExperimentRequest) (projectID : String)
      (out : Option model.ChaosExperimentResponse × Option GoError)
  | DeleteChaosExperiment (projectID : String) (experimentID : String)
      (experimentRunID : Option String) (out : Bool × Option GoError)
  | UpdateCronExperimentState (experimentID : String) (disable : Bool) (projectID : String)
      (out : Bool × Option GoError)
  | GetExperiment (projectID : String) (experimentID : String)
      (out : Option model.GetExperimentResponse × Option GoError)
  | ListExperiment (projectID : String) (request : model.ListExperimentRequest)
      (out : Option model.ListExperimentResponse × Option GoError)
  | GetExperimentStats (projectID : String)
      (out : Option model.GetExperimentStatsResponse × Option GoError)
  | RunCronExperiment (projectID : String) (experiment : StoredExperiment)
      (err : Option GoError)
  | RunChaosWorkFlow (projectID : String) (experiment : StoredExperiment)
      (out : Option model.RunChaosExperimentResponse × Option GoError)
deriving DecidableEq, Repr

/-- The call is the authorization check. -/
def Call.isAuth : Call → Bool
  | .ValidateRole _ _ _ _ => true
  | _ => false

/-- The call is an experiment-handler call that writes: create, save, update,
delete, toggle. -/
def Call.isStoreMutation : Call → Bool
  | .CreateChaosExperiment _ _ _ => true
  | .SaveChaosExperiment _ _ _ => true
  | .UpdateChaosExperiment _ _ _ => true
  | .DeleteChaosExperiment _ _ _ _ => true
  | .UpdateCronExperimentState _ _ _ _ => true
  | _ => false

/-- The call is an experiment-handler call that reads. -/
def Call.isStoreRead : Call → Bool
  | .GetDBExperiment _ _ => true
  | .GetExperiment _ _ _ => true
  | .ListExperiment _ _ _ => true
  | .GetExperimentStats _ _ => true
  | _ => false

/-- The call goes to `chaosExperimentHandler`. -/
def Call.isStore (c : Call) : Bool := c.isStoreMutation || c.isStoreRead

/-- The call goes to `chaosExperimentRunHandler`. -/
def Call.isDispatch : Call → Bool
  | .RunCronExperiment _ _ _ => true
  | .RunChaosWorkFlow _ _ _ => true
  | _ => false

/-- The error the call returned, nil when it succeeded. -/
def Call.err : Call → Option GoError
  | .ValidateRole _ _ _ e => e
  | .CreateChaosExperiment _ _ o => o.2
  | .GetDBExperiment _ o => o.2
  | .SaveChaosExperiment _ _ o => o.2
  | .UpdateChaosExperiment _ _ o => o.2
  | .DeleteChaosExperiment _ _ _ o => o.2
  | .UpdateCronExperimentState _ _ _ o => o.2
  | .GetExperiment _ _ o => o.2
  | .ListExperiment _ _ o => o.2
  | .GetExperimentStats _ o => o.2
  | .RunCronExperiment _ _ e => e
  | .RunChaosWorkFlow _ _ o => o.2

/-- The call returned a non-nil error. -/
def Call.failed (c : Call) : Bool := c.err.isSome

/-- Position of a call in the fixed order authorize, write, read, dispatch. -/
def Call.phase (c : Call) : Nat :=
  if c.isAuth then 0 else if c.isStoreMutation then 1 else if c.isStoreRead then 2 else 3

/-! ## The resolver and the world it runs in -/

/-- Field `chaosExperimentHandler` of the resolver: the experiment store. Each
method returns its Go result pair and the collaborator state it leaves.
`CreateChaosExperiment` is handed `&request`, a pointer to the resolver's own
variable, which the resolver reads again afterwards; so it returns, beside
its result pair, the request as it leaves it. `UpdateChaosExperiment` is
handed a pointer too, but the resolver does not read the request after that
call. -/
structure ChaosExperimentHandler (σ : Type) where
  CreateChaosExperiment : context.Context → model.ChaosExperimentRequest → String → σ →
    ((Option model.ChaosExperimentResponse × Option GoError) × model.ChaosExperimentRequest) × σ
  GetDBExperiment : bson.D → σ → (StoredExperiment × Option GoError) × σ
  SaveChaosExperiment : context.Context → model.SaveChaosExperimentRequest → String → σ →
    (String × Option GoError) × σ
  UpdateChaosExperiment : context.Context → model.ChaosExperimentRequest → String → σ →
    (Option model.ChaosExperimentResponse × Option GoError) × σ
  DeleteChaosExperiment : context.Context → String → String → Option String → σ →
    (Bool × Option GoError) × σ
  UpdateCronExperimentState : context.Context → String → Bool → String → σ →
    (Bool × Option GoError) × σ
  GetExperiment : context.Context → String → String → σ →
    (Option model.GetExperimentResponse × Option GoError) × σ
  ListExperiment : String → model.ListExperimentRequest → σ →
    (Option model.ListExperimentResponse × Option GoError) × σ
  GetExperimentStats : context.Context → String → σ →
    (Option model.GetExperimentStatsResponse × Option GoError) × σ

/-- Field `chaosExperimentRunHandler` of the resolver: the run dispatcher. -/
structure ChaosExperimentRunHandler (σ : Type) where
  RunCronExperiment : context.Context → String → StoredExperiment → σ → Option GoError × σ
  RunChaosWorkFlow : context.Context → String → StoredExperiment → σ →
    (Option model.RunChaosExperimentResponse × Option GoError) × σ

/-- What `mutationResolver` and `queryResolver` reach: the two handler fields
of `Resolver`, and from the packages declared outside this file the function
`authorization.ValidateRole`, the table `authorization.MutationRbacRules` and
the text of `model.InvitationAccepted.String()`. -/
structure Resolver (σ : Type) where
  chaosExperimentHandler : ChaosExperimentHandler σ
  chaosExperimentRunHandler : ChaosExperimentRunHandler σ
  ValidateRole : context.Context → String → List String → String → σ → Option GoError × σ
  MutationRbacRules : authorization.RoleQuery → List String
  InvitationAccepted : String

/-- Collaborator state together with what one request has done so far: the
collaborator calls and the log lines, oldest first. -/
structure World (σ : Type) where
  st : σ
  calls : List Call
  logs : List LogEntry

/-- World at the start of a request. -/
def World.fresh {σ : Type} (s : σ) : World σ := ⟨s, [], []⟩

/-- Perform one collaborator call on the current state and record it. -/
def World.call {σ β : Type} (w : World σ) (f : σ → β × σ) (event : β → Call) : β × World σ :=
  match f w.st with
  | (b, s) => (b, ⟨s, w.calls ++ [event b], w.logs⟩)

/-- Log call `logrus.WithFields(fields).Info(message)`. -/
def logrus.Info {σ : Type} (fields : List (String × LogValue)) (message : String)
    (w : World σ) : World σ :=
  ⟨w.st, w.calls, w.logs ++ [⟨LogLevel.info, fields, message⟩]⟩

/-- Log call `logrus.WithFields(fields).Error(err)`. -/
def logrus.Error {σ : Type} (fields : List (String × LogValue)) (err : GoError)
    (w : World σ) : World σ :=
  ⟨w.st, w.calls, w.logs ++ [⟨LogLevel.error, fields, err.Error⟩]⟩

/-- How a resolver call ends: it returns its Go result pair, or it panics on a
nil dereference. -/
inductive Outcome (α : Type) where
  | returned (val : α) (err : Option GoError)
  | panicked
deriving DecidableEq, Repr

/-- Resolver `mutationResolver.CreateChaosExperiment` (lines 18-66). The store
handler is called with `&request` (line 31); `requestNow` is the variable
`request` as that call left it, and it is `requestNow.RunExperiment` that
line 35 reads. -/
def mutationResolver.CreateChaosExperiment {σ : Type} (r : Resolver σ) (ctx : context.Context)
    (request : model.ChaosExperimentRequest) (projectID : String) (w : World σ) :
    Outcome (Option model.ChaosExperimentResponse) × World σ :=
  let logFields := [("projectId", LogValue.str projectID)]
  let w1 := logrus.Info logFields "request received to create chaos experiment" w
  match w1.call
      (r.ValidateRole ctx projectID
        (r.MutationRbacRules authorization.RoleQuery.CreateEnvironment) r.InvitationAccepted)
      (Call.ValidateRole projectID authorization.RoleQuery.CreateEnvironment
        r.InvitationAccepted) with
  | (some err, w2) => (.returned none (some err), w2)
  | (none, w2) =>
    match w2.call (r.chaosExperimentHandler.CreateChaosExperiment ctx request projectID)
        (fun b => Call.CreateChaosExperiment request projectID b.1) with
    | (((_, some err), _), w3) =>
      (.returned none (some (errors.New ("could not create experiment, error: " ++ err.Error))),
        w3)
    | (((uiResponse, none), requestNow), w3) =>
      if requestNow.RunExperiment = some true then
        match uiResponse with
        | none => (.panicked, w3)
        | some ui =>
          let query : bson.D :=
            [("experiment_id", bson.Value.str ui.ExperimentID),
             ("is_removed", bson.Value.bool false)]
          match w3.call (r.chaosExperimentHandler.GetDBExperiment query)
              (Call.GetDBExperiment query) with
          | ((_, some err), w4) =>
            (.returned none
              (some (errors.New ("could not get experiment run, error: " ++ err.Error))), w4)
          | ((experiment, none), w4) =>
            if experiment.CronSyntax ≠ "" then
              match w4.call
                  (r.chaosExperimentRunHandler.RunCronExperiment ctx projectID experiment)
                  (Call.RunCronExperiment projectID experiment) with
              | (some err, w5) => (.returned none (some err), logrus.Error logFields err w5)
              | (none, w5) =>
                (.returned uiResponse none,
                  logrus.Info
                    (logFields ++ [("workflowId", LogValue.str experiment.ExperimentID)])
                    "cron experiment created successfully" w5)
            else
              match w4.call
                  (r.chaosExperimentRunHandler.RunChaosWorkFlow ctx projectID experiment)
                  (Call.RunChaosWorkFlow projectID experiment) with
              | ((_, some err), w5) => (.returned none (some err), logrus.Error logFields err w5)
              | ((_, none), w5) => (.returned uiResponse none, w5)
      else (.returned uiResponse none, w3)

/-- Resolver `mutationResolver.SaveChaosExperiment` (lines 68-90). -/
def mutationResolver.SaveChaosExperiment {σ : Type} (r : Resolver σ) (ctx : context.Context)
    (request : model.SaveChaosExperimentRequest) (projectID : String) (w : World σ) :
    Outcome String × World σ :=
  let logFields :=
    [("experimentId", LogValue.str request.ID), ("projectId", LogValue.str projectID)]
  let w1 := logrus.Info logFields "request received to save chaos experiment" w
  match w1.call
      (r.ValidateRole ctx projectID
        (r.MutationRbacRules authorization.RoleQuery.CreateChaosWorkFlow) r.InvitationAccepted)
      (Call.ValidateRole projectID authorization.RoleQuery.CreateChaosWorkFlow
        r.InvitationAccepted) with
  | (some err, w2) => (.returned "" (some err), w2)
  | (none, w2) =>
    match w2.call (r.chaosExperimentHandler.SaveChaosExperiment ctx request projectID)
        (Call.SaveChaosExperiment request projectID) with
    | ((_, some err), w3) => (.returned "" (some err), logrus.Error logFields err w3)
    | ((uiResponse, none), w3) => (.returned uiResponse none, w3)

/-- Resolver `mutationResolver.UpdateChaosExperiment` (lines 92-112). The
request is a `*model.ChaosExperimentRequest`, nil being `none`; line 95 reads
`request.ExperimentID` while building the log fields, before anything is
logged or called, so a nil request panics there. -/
def mutationResolver.UpdateChaosExperiment {σ : Type} (r : Resolver σ) (ctx : context.Context)
    (request : Option model.ChaosExperimentRequest) (projectID : String) (w : World σ) :
    Outcome (Option model.ChaosExperimentResponse) × World σ :=
  match request with
  | none => (.panicked, w)
  | some request =>
    let logFields :=
      [("projectId", LogValue.str projectID),
       ("chaosExperimentId", LogValue.optStr request.ExperimentID)]
    let w1 := logrus.Info logFields "request received to update chaos experiment" w
    match w1.call
        (r.ValidateRole ctx projectID
          (r.MutationRbacRules authorization.RoleQuery.ReRunChaosWorkFlow) r.InvitationAccepted)
        (Call.ValidateRole projectID authorization.RoleQuery.ReRunChaosWorkFlow
          r.InvitationAccepted) with
    | (some err, w2) => (.returned none (some err), w2)
    | (none, w2) =>
      match w2.call (r.chaosExperimentHandler.UpdateChaosExperiment ctx request projectID)
          (Call.UpdateChaosExperiment request projectID) with
      | ((_, some err), w3) => (.returned none (some err), logrus.Error logFields err w3)
      | ((uiResponse, none), w3) => (.returned uiResponse none, w3)

/-- Resolver `mutationResolver.DeleteChaosExperiment` (lines 114-136). -/
def mutationResolver.DeleteChaosExperiment {σ : Type} (r : Resolver σ) (ctx : context.Context)
    (experimentID : String) (experimentRunID : Option String) (projectID : String)
    (w : World σ) : Outcome Bool × World σ :=
  let logFields :=
    [("projectId", LogValue.str projectID),
     ("chaosExperimentId", LogValue.str experimentID),
     ("chaosExperimentRunId", LogValue.optStr experimentRunID)]
  let w1 := logrus.Info logFields "request received to delete chaos experiment" w
  match w1.call
      (r.ValidateRole ctx projectID
        (r.MutationRbacRules authorization.RoleQuery.DeleteChaosWorkflow) r.InvitationAccepted)
      (Call.ValidateRole projectID authorization.RoleQuery.DeleteChaosWorkflow
        r.InvitationAccepted) with
  | (some err, w2) => (.returned false (some err), w2)
  | (none, w2) =>
    match w2.call
        (r.chaosExperimentHandler.DeleteChaosExperiment ctx projectID experimentID
          experimentRunID)
        (Call.DeleteChaosExperiment projectID experimentID experimentRunID) with
    | ((_, some err), w3) => (.returned false (some err), logrus.Error logFields err w3)
    | ((uiResponse, none), w3) => (.returned uiResponse none, w3)

/-- Resolver `mutationResolver.UpdateCronExperimentState` (lines 138-159). -/
def mutationResolver.UpdateCronExperimentState {σ : Type} (r : Resolver σ)
    (ctx : context.Context) (experimentID : String) (disable : Bool) (projectID : String)
    (w : World σ) : Outcome Bool × World σ :=
  let logFields :=
    [("projectId", LogValue.str projectID), ("chaosExperimentId", LogValue.str experimentID)]
  let w1 := logrus.Info logFields "request received to update cron chaos experiment" w
  match w1.call
      (r.ValidateRole ctx projectID
        (r.MutationRbacRules authorization.RoleQuery.UpdateChaosWorkflow) r.InvitationAccepted)
      (Call.ValidateRole projectID authorization.RoleQuery.UpdateChaosWorkflow
        r.InvitationAccepted) with
  | (some err, w2) => (.returned false (some err), w2)
  | (none, w2) =>
    match w2.call
        (r.chaosExperimentHandler.UpdateCronExperimentState ctx experimentID disable projectID)
        (Call.UpdateCronExperimentState experimentID disable projectID) with
    | ((_, some err), w3) => (.returned false (some err), logrus.Error logFields err w3)
    | ((uiResponse, none), w3) => (.returned uiResponse none, w3)

/-- Resolver `queryResolver.GetExperiment` (lines 161-180). -/
def queryResolver.GetExperiment {σ : Type} (r : Resolver σ) (ctx : context.Context)
    (projectID : String) (experimentID : String) (w : World σ) :
    Outcome (Option model.GetExperimentResponse) × World σ :=
  let logFields :=
    [("projectId", LogValue.str projectID), ("chaosExperimentId", LogValue.str experimentID)]
  let w1 := logrus.Info logFields "request received to get chaos experiment" w
  match w1.call
      (r.ValidateRole ctx projectID
        (r.MutationRbacRules authorization.RoleQuery.ListWorkflow) r.InvitationAccepted)
      (Call.ValidateRole projectID authorization.RoleQuery.ListWorkflow
        r.InvitationAccepted) with
  | (some err, w2) => (.returned none (some err), w2)
  | (none, w2) =>
    match w2.call (r.chaosExperimentHandler.GetExperiment ctx projectID experimentID)
        (Call.GetExperiment projectID experimentID) with
    | ((_, some err), w3) => (.returned none (some err), logrus.Error logFields err w3)
    | ((expResponse, none), w3) => (.returned expResponse none, w3)

/-- Resolver `queryResolver.ListExperiment` (lines 182-201). -/
def queryResolver.ListExperiment {σ : Type} (r : Resolver σ) (ctx : context.Context)
    (projectID : String) (request : model.ListExperimentRequest) (w : World σ) :
    Outcome (Option model.ListExperimentResponse) × World σ :=
  let logFields :=
    [("projectId", LogValue.str projectID),
     ("chaosExperimentIds", LogValue.strs request.ExperimentIDs)]
  let w1 := logrus.Info logFields "request received to list chaos experiments" w
  match w1.call
      (r.ValidateRole ctx projectID
        (r.MutationRbacRules authorization.RoleQuery.ListWorkflow) r.InvitationAccepted)
      (Call.ValidateRole projectID authorization.RoleQuery.ListWorkflow
        r.InvitationAccepted) with
  | (some err, w2) => (.returned none (some err), w2)
  | (none, w2) =>
    match w2.call (r.chaosExperimentHandler.ListExperiment projectID request)
        (Call.ListExperiment projectID request) with
    | ((_, some err), w3) => (.returned none (some err), logrus.Error logFields err w3)
    | ((uiResponse, none), w3) => (.returned uiResponse none, w3)

/-- Resolver `queryResolver.GetExperimentStats` (lines 203-222). -/
def queryResolver.GetExperimentStats {σ : Type} (r : Resolver σ) (ctx : context.Context)
    (projectID : String) (w : World σ) :
    Outcome (Option model.GetExperimentStatsResponse) × World σ :=
  let logFields := [("projectId", LogValue.str projectID)]
  let w1 := logrus.Info logFields "request received to get chaos experiment stats" w
  match w1.call
      (r.ValidateRole ctx projectID
        (r.MutationRbacRules authorization.RoleQuery.ListWorkflow) r.InvitationAccepted)
      (Call.ValidateRole projectID authorization.RoleQuery.ListWorkflow
        r.InvitationAccepted) with
  | (some err, w2) => (.returned none (some err), w2)
  | (none, w2) =>
    match w2.call (r.chaosExperimentHandler.GetExperimentStats ctx projectID)
        (Call.GetExperimentStats projectID) with
    | ((_, some err), w3) => (.returned none (some err), logrus.Error logFields err w3)
    | ((uiResponse, none), w3) => (.returned uiResponse none, w3)

/-! ## The eight operations as one entry point

`Mutation()` and `Query()` (lines 224-228) expose the resolvers above as the
generated `MutationResolver` and `QueryResolver` interfaces. An `Operation` is
one call through either interface with its arguments. -/

/-- One call of one of the eight resolver methods. -/
inductive Operation where
  | CreateChaosExperiment (request : model.ChaosExperimentRequest) (projectID : String)
  | SaveChaosExperiment (request : model.SaveChaosExperimentRequest) (projectID : String)
  | UpdateChaosExperiment (request : Option model.ChaosExperimentRequest)
      (projectID : String)
  | DeleteChaosExperiment (experimentID : String) (experimentRunID : Option String)
      (projectID : String)
  | UpdateCronExperimentState (experimentID : String) (disable : Bool) (projectID : String)
  | GetExperiment (projectID : String) (experimentID : String)
  | ListExperiment (projectID : String) (request : model.ListExperimentRequest)
  | GetExperimentStats (projectID : String)
deriving DecidableEq, Repr

/-- First component of what a resolver method returns. -/
inductive Reply where
  | experiment (r : Option model.ChaosExperimentResponse)
  | token (s : String)
  | flag (b : Bool)
  | detail (r : Option model.GetExperimentResponse)
  | list (r : Option model.ListExperimentResponse)
  | stats (r : Option model.GetExperimentStatsResponse)
deriving DecidableEq, Repr

/-- Change the value a returned outcome carries. -/
def Outcome.map {α β : Type} (f : α → β) : Outcome α → Outcome β
  | .returned v e => .returned (f v) e
  | .panicked => .panicked

/-- Run one operation against the resolver. -/
def Operation.run {σ : Type} (r : Resolver σ) (ctx : context.Context) (w : World σ) :
    Operation → Outcome Reply × World σ
  | .CreateChaosExperiment request projectID =>
    let x := mutationResolver.CreateChaosExperiment r ctx request projectID w
    (x.1.map Reply.experiment, x.2)
  | .SaveChaosExperiment request projectID =>
    let x := mutationResolver.SaveChaosExperiment r ctx request projectID w
    (x.1.map Reply.token, x.2)
  | .UpdateChaosExperiment request projectID =>
    let x := mutationResolver.UpdateChaosExperiment r ctx request projectID w
    (x.1.map Reply.experiment, x.2)
  | .DeleteChaosExperiment experimentID experimentRunID projectID =>
    let x := mutationResolver.DeleteChaosExperiment r ctx experimentID experimentRunID projectID w
    (x.1.map Reply.flag, x.2)
  | .UpdateCronExperimentState experimentID disable projectID =>
    let x := mutationResolver.UpdateCronExperimentState r ctx experimentID disable projectID w
    (x.1.map Reply.flag, x.2)
  | .GetExperiment projectID experimentID =>
    let x := queryResolver.GetExperiment r ctx projectID experimentID w
    (x.1.map Reply.detail, x.2)
  | .ListExperiment projectID request =>
    let x := queryResolver.ListExperiment r ctx projectID request w
    (x.1.map Reply.list, x.2)
  | .GetExperimentStats projectID =>
    let x := queryResolver.GetExperimentStats r ctx projectID w
    (x.1.map Reply.stats, x.2)

/-- The project the operation is addressed to. -/
def Operation.projectID : Operation → String
  | .CreateChaosExperiment _ p => p
  | .SaveChaosExperiment _ p => p
  | .UpdateChaosExperiment _ p => p
  | .DeleteChaosExperiment _ _ p => p
  | .UpdateCronExperimentState _ _ p => p
  | .GetExperiment p _ => p
  | .ListExperiment p _ => p
  | .GetExperimentStats p => p

/-- The key with which each resolver indexes `authorization.MutationRbacRules`
(lines 25, 75, 100, 124, 147, 168, 190, 210). -/
def Operation.rule : Operation → authorization.RoleQuery
  | .CreateChaosExperiment _ _ => authorization.RoleQuery.CreateEnvironment
  | .SaveChaosExperiment _ _ => authorization.RoleQuery.CreateChaosWorkFlow
  | .UpdateChaosExperiment _ _ => authorization.RoleQuery.ReRunChaosWorkFlow
  | .DeleteChaosExperiment _ _ _ => authorization.RoleQuery.DeleteChaosWorkflow
  | .UpdateCronExperimentState _ _ _ => authorization.RoleQuery.UpdateChaosWorkflow
  | .GetExperiment _ _ => authorization.RoleQuery.ListWorkflow
  | .ListExperiment _ _ => authorization.RoleQuery.ListWorkflow
  | .GetExperimentStats _ => authorization.RoleQuery.ListWorkflow

/-- The zero result each resolver returns beside an error: nil, the empty
string or false. -/
def Operation.zero : Operation → Reply
  | .CreateChaosExperiment _ _ => Reply.experiment none
  | .SaveChaosExperiment _ _ => Reply.token ""
  | .UpdateChaosExperiment _ _ => Reply.experiment none
  | .DeleteChaosExperiment _ _ _ => Reply.flag false
  | .UpdateCronExperimentState _ _ _ => Reply.flag false
  | .GetExperiment _ _ => Reply.detail none
  | .ListExperiment _ _ => Reply.list none
  | .GetExperimentStats _ => Reply.stats none

/-- The operation is `CreateChaosExperiment`. -/
def Operation.isCreate : Operation → Bool
  | .CreateChaosExperiment _ _ => true
  | _ => false

/-- The operation panics on its request before making any call: an
`UpdateChaosExperiment` whose request pointer is nil. -/
def Operation.nilRequest : Operation → Bool
  | .UpdateChaosExperiment none _ => true
  | _ => false

/-- The experiment-handler call the operation makes once authorized, as a
state transformer returning the handler result (its first component as a
`Reply`) and the collaborator state it leaves; `none` for an operation that
never reaches the call because its request pointer is nil. -/
def Operation.storeCall {σ : Type} (r : Resolver σ) (ctx : context.Context) :
    Operation → σ → Option ((Reply × Option GoError) × σ)
  | .CreateChaosExperiment request projectID => fun s =>
    let x := r.chaosExperimentHandler.CreateChaosExperiment ctx request projectID s
    some ((Reply.experiment x.1.1.1, x.1.1.2), x.2)
  | .SaveChaosExperiment request projectID => fun s =>
    let x := r.chaosExperimentHandler.SaveChaosExperiment ctx request projectID s
    some ((Reply.token x.1.1, x.1.2), x.2)
  | .UpdateChaosExperiment none _ => fun _ => none
  | .UpdateChaosExperiment (some request) projectID => fun s =>
    let x := r.chaosExperimentHandler.UpdateChaosExperiment ctx request projectID s
    some ((Reply.experiment x.1.1, x.1.2), x.2)
  | .DeleteChaosExperiment experimentID experimentRunID projectID => fun s =>
    let x := r.chaosExperimentHandler.DeleteChaosExperiment ctx projectID experimentID
      experimentRunID s
    some ((Reply.flag x.1.1, x.1.2), x.2)
  | .UpdateCronExperimentState experimentID disable projectID => fun s =>
    let x := r.chaosExperimentHandler.UpdateCronExperimentState ctx experimentID disable
      projectID s
    some ((Reply.flag x.1.1, x.1.2), x.2)
  | .GetExperiment projectID experimentID => fun s =>
    let x := r.chaosExperimentHandler.GetExperiment ctx projectID experimentID s
    some ((Reply.detail x.1.1, x.1.2), x.2)
  | .ListExperiment projectID request => fun s =>
    let x := r.chaosExperimentHandler.ListExperiment projectID request s
    some ((Reply.list x.1.1, x.1.2), x.2)
  | .GetExperimentStats projectID => fun s =>
    let x := r.chaosExperimentHandler.GetExperimentStats ctx projectID s
    some ((Reply.stats x.1.1, x.1.2), x.2)

/-- What `authorization.ValidateRole` returns to the operation run from
collaborator state `s`: the error and the state the check leaves; `none` for
an operation that never reaches the check because its request pointer is
nil. -/
def Operation.authCall {σ : Type} (r : Resolver σ) (ctx : context.Context) (op : Operation)
    (s : σ) : Option (Option GoError × σ) :=
  if op.nilRequest then none
  else some (r.ValidateRole ctx op.projectID (r.MutationRbacRules op.rule) r.InvitationAccepted s)

/-! ## An in-memory backend

A small concrete resolver to run the operations on: experiments are kept in a
list, the dispatcher keeps the identifiers it started or scheduled, and each
collaborator can be made to fail. -/

/-- Collaborator state of the in-memory backend. -/
structure Backend where
  experiments : List StoredExperiment
  started : List String
  scheduled : List String
deriving DecidableEq, Repr

/-- Failures to inject into the in-memory backend, nil meaning none. -/
structure Faults where
  create : Option GoError
  fetch : Option GoError
  store : Option GoError
  dispatch : Option GoError
deriving DecidableEq, Repr

/-- No injected failure. -/
def Faults.none : Faults := ⟨Option.none, Option.none, Option.none, Option.none⟩

/-- The empty in-memory backend. -/
def Backend.empty : Backend := ⟨[], [], []⟩

/-- Denial returned by the in-memory authorization check. -/
def permissionDenied : GoError := ⟨"*errors.errorString", "permission_denied"⟩

/-- The experiment-handler of the in-memory backend. Its create fills in the
experiment identifier of the request it is handed and leaves the other
fields, `RunExperiment` among them, as they were. -/
def memHandler (f : Faults) : ChaosExperimentHandler Backend where
  CreateChaosExperiment := fun _ request projectID s =>
    match f.create with
    | some e => (((Option.none, some e), request), s)
    | Option.none =>
      let id := request.ExperimentID.getD "e1"
      (((some ⟨id, request.ExperimentName, request.CronSyntax⟩, Option.none),
          ⟨some id, request.RunExperiment, request.ExperimentName, request.CronSyntax,
            request.ExperimentManifest⟩),
        ⟨s.experiments ++ [⟨id, projectID, request.CronSyntax, false⟩], s.started, s.scheduled⟩)
  GetDBExperiment := fun query s =>
    match f.fetch with
    | some e => ((⟨"", "", "", false⟩, some e), s)
    | Option.none =>
      match s.experiments.find? (fun x =>
          decide (query = [("experiment_id", bson.Value.str x.ExperimentID),
            ("is_removed", bson.Value.bool x.IsRemoved)])) with
      | some d => ((d, Option.none), s)
      | Option.none => ((⟨"", "", "", false⟩, some (errors.New "no documents in result")), s)
  SaveChaosExperiment := fun _ request _ s =>
    match f.store with
    | some e => (("", some e), s)
    | Option.none => (("experiment saved successfully: " ++ request.ID, Option.none), s)
  UpdateChaosExperiment := fun _ request _ s =>
    match f.store with
    | some e => ((Option.none, some e), s)
    | Option.none =>
      ((some ⟨request.ExperimentID.getD "", request.ExperimentName, request.CronSyntax⟩,
        Option.none), s)
  DeleteChaosExperiment := fun _ _ experimentID _ s =>
    match f.store with
    | some e => ((false, some e), s)
    | Option.none =>
      ((true, Option.none),
        ⟨s.experiments.map (fun x =>
          if x.ExperimentID = experimentID then
            ⟨x.ExperimentID, x.ProjectID, x.CronSyntax, true⟩ else x), s.started, s.scheduled⟩)
  UpdateCronExperimentState := fun _ _ _ _ s =>
    match f.store with
    | some e => ((false, some e), s)
    | Option.none => ((true, Option.none), s)
  GetExperiment := fun _ _ experimentID s =>
    match f.store with
    | some e => ((Option.none, some e), s)
    | Option.none =>
      match s.experiments.find? (fun x => decide (x.ExperimentID = experimentID)) with
      | some d => ((some ⟨d.ExperimentID, d.CronSyntax⟩, Option.none), s)
      | Option.none => ((Option.none, some (errors.New "no documents in result")), s)
  ListExperiment := fun _ _ s =>
    match f.store with
    | some e => ((Option.none, some e), s)
    | Option.none =>
      ((some ⟨s.experiments.length, s.experiments.map (fun x => x.ExperimentID)⟩, Option.none), s)
  GetExperimentStats := fun _ _ s =>
    match f.store with
    | some e => ((Option.none, some e), s)
    | Option.none => ((some ⟨s.experiments.length⟩, Option.none), s)

/-- The run-handler of the in-memory backend. -/
def memRunHandler (f : Faults) : ChaosExperimentRunHandler Backend where
  RunCronExperiment := fun _ _ experiment s =>
    match f.dispatch with
    | some e => (some e, s)
    | Option.none =>
      (Option.none, ⟨s.experiments, s.started, s.scheduled ++ [experiment.ExperimentID]⟩)
  RunChaosWorkFlow := fun _ _ experiment s =>
    match f.dispatch with
    | some e => ((Option.none, some e), s)
    | Option.none =>
      ((some ⟨"run-" ++ experiment.ExperimentID⟩, Option.none),
        ⟨s.experiments, s.started ++ [experiment.ExperimentID], s.scheduled⟩)

/-- The in-memory resolver: a caller is granted when its token is one of the
required roles and the membership state is "Accepted"; owners and editors may
write, viewers may only read. -/
def memResolver (f : Faults) : Resolver Backend where
  chaosExperimentHandler := memHandler f
  chaosExperimentRunHandler := memRunHandler f
  ValidateRole := fun ctx _ roles invitation s =>
    if invitation = "Accepted" ∧ ctx.token ∈ roles then (Option.none, s)
    else (some permissionDenied, s)
  MutationRbacRules := fun q =>
    match q with
    | authorization.RoleQuery.ListWorkflow => ["Owner", "Editor", "Viewer"]
    | _ => ["Owner", "Editor"]
  InvitationAccepted := "Accepted"

/-- An in-memory resolver whose store create, beside persisting, writes
`RunExperiment = true` into the request it is handed. -/
def runForcingResolver : Resolver Backend where
  chaosExperimentHandler :=
    ⟨fun ctx request projectID s =>
        match (memHandler Faults.none).CreateChaosExperiment ctx request projectID s with
        | ((out, left), t) =>
          ((out, ⟨left.ExperimentID, some true, left.ExperimentName, left.CronSyntax,
            left.ExperimentManifest⟩), t),
      (memHandler Faults.none).GetDBExperiment,
      (memHandler Faults.none).SaveChaosExperiment,
      (memHandler Faults.none).UpdateChaosExperiment,
      (memHandler Faults.none).DeleteChaosExperiment,
      (memHandler Faults.none).UpdateCronExperimentState,
      (memHandler Faults.none).GetExperiment,
      (memHandler Faults.none).ListExperiment,
      (memHandler Faults.none).GetExperimentStats⟩
  chaosExperimentRunHandler := memRunHandler Faults.none
  ValidateRole := (memResolver Faults.none).ValidateRole
  MutationRbacRules := (memResolver Faults.none).MutationRbacRules
  InvitationAccepted := "Accepted"

/-- A caller holding the owner role. -/
def owner : context.Context := ⟨"Owner"⟩

/-- A caller holding only the viewer role. -/
def viewer : context.Context := ⟨"Viewer"⟩

/-- A create request for experiment "e1" that asks to run at once, with the
given recurrence field. -/
def runNow (cron : String) : model.ChaosExperimentRequest :=
  ⟨some "e1", some true, "pod-delete", cron, "kind: Workflow"⟩

/-- A create request for experiment "e1" that does not ask to run. -/
def keepOnly (cron : String) : model.ChaosExperimentRequest :=
  ⟨some "e1", some false, "pod-delete", cron, "kind: Workflow"⟩

/-- A collaborator failure. -/
def boom : GoError := errors.New "boom"

/-! ## Helper lemmas -/

theorem World.call_eq {σ β : Type} (w : World σ) (f : σ → β × σ) (event : β → Call) :
    w.call f event = ((f w.st).1, ⟨(f w.st).2, w.calls ++ [event (f w.st).1], w.logs⟩) := by
  unfold World.call
  rfl

theorem fetch_text_ne_create_text (m n : String) :
    "could not get experiment run, error: " ++ m ≠ "could not create experiment, error: " ++ n := by
  intro h
  have h1 := congrArg (fun s => s.data.get? 10) h
  simp [String.data_append] at h1

theorem append_ne_self (p m : String) (hp : p ≠ "") : p ++ m ≠ m := by
  intro h
  have h1 := congrArg String.length h
  simp only [String.length_append] at h1
  have h0 : p.length = 0 := by omega
  apply hp
  apply String.ext
  exact List.length_eq_zero.mp h0

theorem errors_New_wrap_ne (p : String) (hp : p ≠ "") (e : GoError) :
    errors.New (p ++ e.Error) ≠ e := by
  intro h
  have h1 := congrArg GoError.msg h
  exact append_ne_self p e.msg hp h1

/-! ## Authorization denial -/

/-- C1: for each of the eight operations, when `authorization.ValidateRole`
returns a non-nil error `e` to it, the operation returns the zero result
together with `e` itself, the authorization check is the only collaborator
call made (no experiment-handler call, no run-handler call), and the
collaborator state is the one the check left. (An `UpdateChaosExperiment` on a
nil request never reaches the check, so nothing is returned to it.) -/
theorem denied_returns_verbatim_without_calls {σ : Type} (r : Resolver σ)
    (ctx : context.Context) (op : Operation) (s s1 : σ) (e : GoError)
    (hdeny : op.authCall r ctx s = some (some e, s1)) :
    (op.run r ctx (World.fresh s)).1 = Outcome.returned op.zero (some e) ∧
    (op.run r ctx (World.fresh s)).2.calls =
      [Call.ValidateRole op.projectID op.rule r.InvitationAccepted (some e)] ∧
    (∀ c ∈ (op.run r ctx (World.fresh s)).2.calls,
      c.isStore = false ∧ c.isDispatch = false) ∧
    (op.run r ctx (World.fresh s)).2.st = s1 := by
  cases op with
  | UpdateChaosExperiment request projectID =>
    cases request with
    | none => simp [Operation.authCall, Operation.nilRequest] at hdeny
    | some request =>
      simp_all [Operation.run, Operation.authCall, Operation.nilRequest, Operation.projectID,
        Operation.rule, Operation.zero, Outcome.map, World.call_eq, World.fresh, logrus.Info,
        Call.isStore, Call.isStoreMutation, Call.isStoreRead, Call.isDispatch,
        mutationResolver.UpdateChaosExperiment]
  | _ =>
    simp_all [Operation.run, Operation.authCall, Operation.nilRequest, Operation.projectID,
      Operation.rule, Operation.zero, Outcome.map, World.call_eq, World.fresh, logrus.Info,
      Call.isStore, Call.isStoreMutation, Call.isStoreRead, Call.isDispatch,
      mutationResolver.CreateChaosExperiment, mutationResolver.SaveChaosExperiment,
      mutationResolver.DeleteChaosExperiment,
      mutationResolver.UpdateCronExperimentState, queryResolver.GetExperiment,
      queryResolver.ListExperiment, queryResolver.GetExperimentStats]

/-- Witness for C1: a viewer deleting experiment "e1" of project "p1" on the
in-memory backend is denied, and nothing but the check is called. -/
theorem denied_returns_verbatim_without_calls_witness :
    (Operation.DeleteChaosExperiment "e1" none "p1").authCall (memResolver Faults.none) viewer
        Backend.empty = some (some permissionDenied, Backend.empty) ∧
    ((Operation.DeleteChaosExperiment "e1" none "p1").run (memResolver Faults.none) viewer
        (World.fresh Backend.empty)).1 = Outcome.returned (Reply.flag false)
          (some permissionDenied) ∧
    ((Operation.DeleteChaosExperiment "e1" none "p1").run (memResolver Faults.none) viewer
        (World.fresh Backend.empty)).2.calls =
      [Call.ValidateRole "p1" authorization.RoleQuery.DeleteChaosWorkflow "Accepted"
        (some permissionDenied)] :=
  have h := denied_returns_verbatim_without_calls (memResolver Faults.none) viewer
    (Operation.DeleteChaosExperiment "e1" none "p1") Backend.empty Backend.empty
    permissionDenied (by rfl)
  ⟨by rfl, h.1, h.2.1⟩

/-! ## Create with immediate run -/

/-- C2: a create request with authorization granted, the store create
succeeding with response `ui`, `RunExperiment` true in the request when the
resolver reads it after that call (`left` is the request as the store handler
left it, which is the request itself unless the handler wrote through the
pointer), and the re-fetch succeeding with the stored definition `d`: the run
handler is called exactly once, with `projectID` and `d`; the call is
`RunCronExperiment` when `d.CronSyntax` is non-empty and `RunChaosWorkFlow`
when it is empty; when the call returns a nil error the operation returns the
store response `ui` and a nil error. -/
theorem create_run_dispatches_refetched_once {σ : Type} (r : Resolver σ)
    (ctx : context.Context) (request : model.ChaosExperimentRequest) (projectID : String)
    (s s1 s2 s3 : σ) (ui : model.ChaosExperimentResponse)
    (left : model.ChaosExperimentRequest) (d : StoredExperiment)
    (hrun : left.RunExperiment = some true)
    (hauth : r.ValidateRole ctx projectID
      (r.MutationRbacRules authorization.RoleQuery.CreateEnvironment) r.InvitationAccepted s
        = (none, s1))
    (hcreate : r.chaosExperimentHandler.CreateChaosExperiment ctx request projectID s1
      = (((some ui, none), left), s2))
    (hget : r.chaosExperimentHandler.GetDBExperiment
      [("experiment_id", bson.Value.str ui.ExperimentID), ("is_removed", bson.Value.bool false)]
      s2 = ((d, none), s3)) :
    (d.CronSyntax ≠ "" →
      ((mutationResolver.CreateChaosExperiment r ctx request projectID
          (World.fresh s)).2.calls.filter Call.isDispatch =
        [Call.RunCronExperiment projectID d
          (r.chaosExperimentRunHandler.RunCronExperiment ctx projectID d s3).1]) ∧
      ((r.chaosExperimentRunHandler.RunCronExperiment ctx projectID d s3).1 = none →
        (mutationResolver.CreateChaosExperiment r ctx request projectID (World.fresh s)).1 =
          Outcome.returned (some ui) none)) ∧
    (d.CronSyntax = "" →
      ((mutationResolver.CreateChaosExperiment r ctx request projectID
          (World.fresh s)).2.calls.filter Call.isDispatch =
        [Call.RunChaosWorkFlow projectID d
          (r.chaosExperimentRunHandler.RunChaosWorkFlow ctx projectID d s3).1]) ∧
      ((r.chaosExperimentRunHandler.RunChaosWorkFlow ctx projectID d s3).1.2 = none →
        (mutationResolver.CreateChaosExperiment r ctx request projectID (World.fresh s)).1 =
          Outcome.returned (some ui) none)) := by
  constructor
  · intro hcron
    rcases hd : r.chaosExperimentRunHandler.RunCronExperiment ctx projectID d s3 with
      ⟨_ | e, s4⟩ <;>
    simp [mutationResolver.CreateChaosExperiment, World.call_eq, World.fresh, logrus.Info,
      logrus.Error, hrun, hauth, hcreate, hget, hcron, hd, Call.isDispatch]
  · intro hcron
    rcases hd : r.chaosExperimentRunHandler.RunChaosWorkFlow ctx projectID d s3 with
      ⟨⟨v, _ | e⟩, s4⟩ <;>
    simp [mutationResolver.CreateChaosExperiment, World.call_eq, World.fresh, logrus.Info,
      logrus.Error, hrun, hauth, hcreate, hget, hcron, hd, Call.isDispatch]

/-- Witness for C2: an owner creating "e1" with schedule "0 * * * *" and
`RunExperiment` true on the in-memory backend registers the re-fetched stored
experiment with the cron scheduler, once, and gets the creation response. -/
theorem create_run_dispatches_refetched_once_witness :
    ((memResolver Faults.none).chaosExperimentHandler.CreateChaosExperiment owner
        (runNow "0 * * * *") "p1" Backend.empty).1.2.RunExperiment = some true ∧
    (mutationResolver.CreateChaosExperiment (memResolver Faults.none) owner
        (runNow "0 * * * *") "p1" (World.fresh Backend.empty)).2.calls.filter Call.isDispatch =
      [Call.RunCronExperiment "p1" ⟨"e1", "p1", "0 * * * *", false⟩ none] ∧
    (mutationResolver.CreateChaosExperiment (memResolver Faults.none) owner
        (runNow "0 * * * *") "p1" (World.fresh Backend.empty)).1 =
      Outcome.returned (some ⟨"e1", "pod-delete", "0 * * * *"⟩) none :=
  have h := create_run_dispatches_refetched_once (memResolver Faults.none) owner
    (runNow "0 * * * *") "p1" Backend.empty Backend.empty
    ⟨[⟨"e1", "p1", "0 * * * *", false⟩], [], []⟩ ⟨[⟨"e1", "p1", "0 * * * *", false⟩], [], []⟩
    ⟨"e1", "pod-delete", "0 * * * *"⟩ (runNow "0 * * * *") ⟨"e1", "p1", "0 * * * *", false⟩
    (by rfl) (by rfl) (by rfl) (by rfl)
  ⟨by rfl, (h.1 (by decide)).1, (h.1 (by decide)).2 (by rfl)⟩

/-! ## Create without immediate run -/

/-- C3, as the code has it: the store handler is handed a pointer to the
request and line 35 reads `RunExperiment` after it returned. A create request
whose `RunExperiment` is false or nil at that point (so every request that
enters with the flag false or nil and whose flag the store handler leaves
alone) never calls `RunChaosWorkFlow` or `RunCronExperiment` and never
re-fetches through `GetDBExperiment`, whatever the collaborators answer; when
authorization is granted and the store create returns a nil error, the
operation returns the store response unchanged with a nil error. -/
theorem create_without_run_never_dispatches {σ : Type} (r : Resolver σ)
    (ctx : context.Context) (request : model.ChaosExperimentRequest) (projectID : String)
    (s : σ)
    (hrun : (r.chaosExperimentHandler.CreateChaosExperiment ctx request projectID
      (r.ValidateRole ctx projectID
        (r.MutationRbacRules authorization.RoleQuery.CreateEnvironment) r.InvitationAccepted
        s).2).1.2.RunExperiment ≠ some true) :
    (∀ c ∈ (mutationResolver.CreateChaosExperiment r ctx request projectID
        (World.fresh s)).2.calls,
      c.isDispatch = false ∧ ∀ q o, c ≠ Call.GetDBExperiment q o) ∧
    (∀ (s1 s2 : σ) (v : Option model.ChaosExperimentResponse)
        (left : model.ChaosExperimentRequest),
      r.ValidateRole ctx projectID
        (r.MutationRbacRules authorization.RoleQuery.CreateEnvironment) r.InvitationAccepted s
          = (none, s1) →
      r.chaosExperimentHandler.CreateChaosExperiment ctx request projectID s1
          = (((v, none), left), s2) →
      (mutationResolver.CreateChaosExperiment r ctx request projectID (World.fresh s)).1 =
        Outcome.returned v none) := by
  constructor
  · rcases ha : r.ValidateRole ctx projectID
      (r.MutationRbacRules authorization.RoleQuery.CreateEnvironment) r.InvitationAccepted s
      with ⟨_ | e, s1⟩
    · rw [ha] at hrun
      rcases hc : r.chaosExperimentHandler.CreateChaosExperiment ctx request projectID s1
        with ⟨⟨⟨v, _ | e⟩, left⟩, s2⟩
      · rw [hc] at hrun
        simp only at hrun
        simp [mutationResolver.CreateChaosExperiment, World.call_eq, World.fresh, logrus.Info,
          hrun, ha, hc, Call.isDispatch]
      · simp [mutationResolver.CreateChaosExperiment, World.call_eq, World.fresh, logrus.Info,
          ha, hc, Call.isDispatch]
    · simp [mutationResolver.CreateChaosExperiment, World.call_eq, World.fresh, logrus.Info,
        ha, Call.isDispatch]
  · intro s1 s2 v left ha hc
    rw [ha] at hrun
    simp only at hrun
    rw [hc] at hrun
    simp only at hrun
    simp [mutationResolver.CreateChaosExperiment, World.call_eq, World.fresh, logrus.Info,
      hrun, ha, hc]

/-- Witness for C3 as amended: an owner creating a recurring experiment with
`RunExperiment` false on the in-memory backend, whose store leaves the flag
alone, gets the creation response after the check and the store create and
nothing else. -/
theorem create_without_run_never_dispatches_witness :
    (keepOnly "0 * * * *").RunExperiment ≠ some true ∧
    ((memResolver Faults.none).chaosExperimentHandler.CreateChaosExperiment owner
        (keepOnly "0 * * * *") "p1" Backend.empty).1.2.RunExperiment ≠ some true ∧
    (mutationResolver.CreateChaosExperiment (memResolver Faults.none) owner
        (keepOnly "0 * * * *") "p1" (World.fresh Backend.empty)).1 =
      Outcome.returned (some ⟨"e1", "pod-delete", "0 * * * *"⟩) none ∧
    (∀ c ∈ (mutationResolver.CreateChaosExperiment (memResolver Faults.none) owner
        (keepOnly "0 * * * *") "p1" (World.fresh Backend.empty)).2.calls,
      c.isDispatch = false ∧ ∀ q o, c ≠ Call.GetDBExperiment q o) :=
  have h := create_without_run_never_dispatches (memResolver Faults.none) owner
    (keepOnly "0 * * * *") "p1" Backend.empty (by decide)
  ⟨by decide, by decide,
    h.2 Backend.empty ⟨[⟨"e1", "p1", "0 * * * *", false⟩], [], []⟩
      (some ⟨"e1", "pod-delete", "0 * * * *"⟩) (keepOnly "0 * * * *") (by rfl) (by rfl),
    h.1⟩

/-- C3 fails as stated: an owner creating one-shot experiment "e1" with
`RunExperiment` false, on an in-memory backend whose store create writes
`RunExperiment = true` through the request pointer, has the experiment
re-fetched and started through `RunChaosWorkFlow`. -/
theorem create_entry_flag_false_dispatched :
    (keepOnly "").RunExperiment = some false ∧
    (mutationResolver.CreateChaosExperiment runForcingResolver owner (keepOnly "") "p1"
        (World.fresh Backend.empty)).2.calls =
      [Call.ValidateRole "p1" authorization.RoleQuery.CreateEnvironment "Accepted" none,
       Call.CreateChaosExperiment (keepOnly "") "p1" (some ⟨"e1", "pod-delete", ""⟩, none),
       Call.GetDBExperiment
         [("experiment_id", bson.Value.str "e1"), ("is_removed", bson.Value.bool false)]
         (⟨"e1", "p1", "", false⟩, none),
       Call.RunChaosWorkFlow "p1" ⟨"e1", "p1", "", false⟩ (some ⟨"run-e1"⟩, none)] ∧
    (mutationResolver.CreateChaosExperiment runForcingResolver owner (keepOnly "") "p1"
        (World.fresh Backend.empty)).2.st =
      ⟨[⟨"e1", "p1", "", false⟩], ["e1"], []⟩ := by
  refine ⟨?_, ?_, ?_⟩ <;> rfl

/-! ## Create: failures after the definition was persisted -/

/-- C4: a create request with authorization granted, the store create
succeeding, `RunExperiment` true in the request as the store handler left it
(`left`, what line 35 reads), the re-fetch succeeding, and the run-handler call
(`RunCronExperiment` for a non-empty `CronSyntax`, `RunChaosWorkFlow`
otherwise) returning error `e`: the operation returns a nil response and `e`
itself; the run-handler call is the last collaborator call of the request,
so no experiment-handler call follows it, and the collaborator state is the
one the run handler left. -/
theorem create_dispatch_failure_returned_unwrapped {σ : Type} (r : Resolver σ)
    (ctx : context.Context) (request : model.ChaosExperimentRequest) (projectID : String)
    (s s1 s2 s3 : σ) (ui : model.ChaosExperimentResponse)
    (left : model.ChaosExperimentRequest) (d : StoredExperiment) (e : GoError)
    (hrun : left.RunExperiment = some true)
    (hauth : r.ValidateRole ctx projectID
      (r.MutationRbacRules authorization.RoleQuery.CreateEnvironment) r.InvitationAccepted s
        = (none, s1))
    (hcreate : r.chaosExperimentHandler.CreateChaosExperiment ctx request projectID s1
      = (((some ui, none), left), s2))
    (hget : r.chaosExperimentHandler.GetDBExperiment
      [("experiment_id", bson.Value.str ui.ExperimentID), ("is_removed", bson.Value.bool false)]
      s2 = ((d, none), s3))
    (hfail : (if d.CronSyntax ≠ "" then
        (r.chaosExperimentRunHandler.RunCronExperiment ctx projectID d s3).1
      else (r.chaosExperimentRunHandler.RunChaosWorkFlow ctx projectID d s3).1.2) = some e) :
    (mutationResolver.CreateChaosExperiment r ctx request projectID (World.fresh s)).1 =
      Outcome.returned none (some e) ∧
    (mutationResolver.CreateChaosExperiment r ctx request projectID (World.fresh s)).2.calls =
      [Call.ValidateRole projectID authorization.RoleQuery.CreateEnvironment
          r.InvitationAccepted none,
        Call.CreateChaosExperiment request projectID (some ui, none),
        Call.GetDBExperiment
          [("experiment_id", bson.Value.str ui.ExperimentID),
           ("is_removed", bson.Value.bool false)] (d, none),
        if d.CronSyntax ≠ "" then Call.RunCronExperiment projectID d (some e)
        else Call.RunChaosWorkFlow projectID d
          (r.chaosExperimentRunHandler.RunChaosWorkFlow ctx projectID d s3).1] ∧
    (mutationResolver.CreateChaosExperiment r ctx request projectID (World.fresh s)).2.st =
      (if d.CronSyntax ≠ "" then
        (r.chaosExperimentRunHandler.RunCronExperiment ctx projectID d s3).2
      else (r.chaosExperimentRunHandler.RunChaosWorkFlow ctx projectID d s3).2) := by
  by_cases hcron : d.CronSyntax = ""
  · rcases hd : r.chaosExperimentRunHandler.RunChaosWorkFlow ctx projectID d s3 with
      ⟨⟨v, x⟩, s4⟩
    simp only [hcron, ne_eq, not_true_eq_false, if_false, hd] at hfail
    subst hfail
    simp [mutationResolver.CreateChaosExperiment, World.call_eq, World.fresh, logrus.Info,
      logrus.Error, hrun, hauth, hcreate, hget, hcron, hd]
  · rcases hd : r.chaosExperimentRunHandler.RunCronExperiment ctx projectID d s3 with ⟨x, s4⟩
    simp only [hcron, ne_eq, not_false_eq_true, if_true, hd] at hfail
    subst hfail
    simp [mutationResolver.CreateChaosExperiment, World.call_eq, World.fresh, logrus.Info,
      logrus.Error, hrun, hauth, hcreate, hget, hcron, hd]

/-- Witness for C4: on the in-memory backend with a failing dispatcher, an
owner creating one-shot experiment "e1" with `RunExperiment` true gets the
dispatcher error itself, and the experiment stays in the store. -/
theorem create_dispatch_failure_returned_unwrapped_witness :
    (mutationResolver.CreateChaosExperiment (memResolver ⟨none, none, none, some boom⟩) owner
        (runNow "") "p1" (World.fresh Backend.empty)).1 = Outcome.returned none (some boom) ∧
    (mutationResolver.CreateChaosExperiment (memResolver ⟨none, none, none, some boom⟩) owner
        (runNow "") "p1" (World.fresh Backend.empty)).2.st =
      ⟨[⟨"e1", "p1", "", false⟩], [], []⟩ :=
  have h := create_dispatch_failure_returned_unwrapped
    (memResolver ⟨none, none, none, some boom⟩) owner (runNow "") "p1" Backend.empty
    Backend.empty ⟨[⟨"e1", "p1", "", false⟩], [], []⟩ ⟨[⟨"e1", "p1", "", false⟩], [], []⟩
    ⟨"e1", "pod-delete", ""⟩ (runNow "") ⟨"e1", "p1", "", false⟩ boom
    (by rfl) (by rfl) (by rfl) (by rfl) (by rfl)
  ⟨h.1, h.2.2⟩

/-- C10: a create request with authorization granted, the store create
succeeding with response `ui` and `RunExperiment` true in the request as the
store handler left it (`left`, what line 35 reads), where the re-fetch
`GetDBExperiment` with filter `experiment_id = ui.ExperimentID`,
`is_removed = false` fails with cause `e`: the run handler is not called, the
response is nil, the error is `errors.New` of "could not get experiment run,
error: " followed by the text of `e`, and it differs from the error any create
request returns when its store create fails with the same cause `e`. -/
theorem create_refetch_failure_wrapped_distinctly {σ τ : Type} (r : Resolver σ)
    (ctx : context.Context) (request : model.ChaosExperimentRequest) (projectID : String)
    (s s1 s2 s3 : σ) (ui : model.ChaosExperimentResponse)
    (left : model.ChaosExperimentRequest) (d : StoredExperiment) (e : GoError)
    (hrun : left.RunExperiment = some true)
    (hauth : r.ValidateRole ctx projectID
      (r.MutationRbacRules authorization.RoleQuery.CreateEnvironment) r.InvitationAccepted s
        = (none, s1))
    (hcreate : r.chaosExperimentHandler.CreateChaosExperiment ctx request projectID s1
      = (((some ui, none), left), s2))
    (hget : r.chaosExperimentHandler.GetDBExperiment
      [("experiment_id", bson.Value.str ui.ExperimentID), ("is_removed", bson.Value.bool false)]
      s2 = ((d, some e), s3))
    (r2 : Resolver τ) (ctx2 : context.Context) (request2 : model.ChaosExperimentRequest)
    (projectID2 : String) (t t1 t2 : τ) (v : Option model.ChaosExperimentResponse)
    (left2 : model.ChaosExperimentRequest)
    (hauth2 : r2.ValidateRole ctx2 projectID2
      (r2.MutationRbacRules authorization.RoleQuery.CreateEnvironment) r2.InvitationAccepted t
        = (none, t1))
    (hcreate2 : r2.chaosExperimentHandler.CreateChaosExperiment ctx2 request2 projectID2 t1
      = (((v, some e), left2), t2)) :
    (mutationResolver.CreateChaosExperiment r ctx request projectID (World.fresh s)).1 =
      Outcome.returned none
        (some (errors.New ("could not get experiment run, error: " ++ e.Error))) ∧
    (mutationResolver.CreateChaosExperiment r ctx request projectID (World.fresh s)).2.calls =
      [Call.ValidateRole projectID authorization.RoleQuery.CreateEnvironment
          r.InvitationAccepted none,
        Call.CreateChaosExperiment request projectID (some ui, none),
        Call.GetDBExperiment
          [("experiment_id", bson.Value.str ui.ExperimentID),
           ("is_removed", bson.Value.bool false)] (d, some e)] ∧
    (∀ c ∈ (mutationResolver.CreateChaosExperiment r ctx request projectID
        (World.fresh s)).2.calls, c.isDispatch = false) ∧
    ∃ e2, (mutationResolver.CreateChaosExperiment r2 ctx2 request2 projectID2
        (World.fresh t)).1 = Outcome.returned none (some e2) ∧
      errors.New ("could not get experiment run, error: " ++ e.Error) ≠ e2 := by
  refine ⟨?_, ?_, ?_, errors.New ("could not create experiment, error: " ++ e.Error), ?_, ?_⟩
  · simp [mutationResolver.CreateChaosExperiment, World.call_eq, World.fresh, logrus.Info,
      hrun, hauth, hcreate, hget]
  · simp [mutationResolver.CreateChaosExperiment, World.call_eq, World.fresh, logrus.Info,
      hrun, hauth, hcreate, hget]
  · simp [mutationResolver.CreateChaosExperiment, World.call_eq, World.fresh, logrus.Info,
      hrun, hauth, hcreate, hget, Call.isDispatch]
  · simp [mutationResolver.CreateChaosExperiment, World.call_eq, World.fresh, logrus.Info,
      hauth2, hcreate2]
  · intro h
    exact fetch_text_ne_create_text e.Error e.Error (congrArg GoError.msg h)

/-- Witness for C10: on the in-memory backend the re-fetch failing with
"boom" yields "could not get experiment run, error: boom", while the store
create failing with "boom" yields "could not create experiment, error: boom". -/
theorem create_refetch_failure_wrapped_distinctly_witness :
    (mutationResolver.CreateChaosExperiment (memResolver ⟨none, some boom, none, none⟩) owner
        (runNow "") "p1" (World.fresh Backend.empty)).1 =
      Outcome.returned none (some (errors.New "could not get experiment run, error: boom")) ∧
    (∀ c ∈ (mutationResolver.CreateChaosExperiment (memResolver ⟨none, some boom, none, none⟩)
        owner (runNow "") "p1" (World.fresh Backend.empty)).2.calls, c.isDispatch = false) ∧
    ∃ e2, (mutationResolver.CreateChaosExperiment (memResolver ⟨some boom, none, none, none⟩)
        owner (runNow "") "p1" (World.fresh Backend.empty)).1 =
        Outcome.returned none (some e2) ∧
      errors.New ("could not get experiment run, error: " ++ boom.Error) ≠ e2 :=
  have h := create_refetch_failure_wrapped_distinctly
    (memResolver ⟨none, some boom, none, none⟩) owner (runNow "") "p1" Backend.empty
    Backend.empty ⟨[⟨"e1", "p1", "", false⟩], [], []⟩ ⟨[⟨"e1", "p1", "", false⟩], [], []⟩
    ⟨"e1", "pod-delete", ""⟩ (runNow "") ⟨"", "", "", false⟩ boom
    (by rfl) (by rfl) (by rfl) (by rfl)
    (memResolver ⟨some boom, none, none, none⟩) owner (runNow "") "p1" Backend.empty
    Backend.empty Backend.empty none (runNow "") (by rfl) (by rfl)
  ⟨h.1, h.2.2.1, h.2.2.2⟩

/-! ## Shape of the call record -/

theorem simple_run_calls {σ : Type} (r : Resolver σ) (ctx : context.Context) (op : Operation)
    (s : σ) (hop : op.isCreate = false) :
    (op.nilRequest = true ∧ (op.run r ctx (World.fresh s)).1 = Outcome.panicked ∧
      (op.run r ctx (World.fresh s)).2.calls = []) ∨
    (∃ e, (op.run r ctx (World.fresh s)).2.calls =
      [Call.ValidateRole op.projectID op.rule r.InvitationAccepted (some e)]) ∨
    (∃ c, (op.run r ctx (World.fresh s)).2.calls =
        [Call.ValidateRole op.projectID op.rule r.InvitationAccepted none, c] ∧
      c.isAuth = false ∧ c.isStore = true ∧ c.isDispatch = false) := by
  cases op with
  | CreateChaosExperiment request projectID => simp [Operation.isCreate] at hop
  | SaveChaosExperiment request projectID =>
    rcases ha : r.ValidateRole ctx projectID
      (r.MutationRbacRules authorization.RoleQuery.CreateChaosWorkFlow) r.InvitationAccepted s
      with ⟨_ | e, s1⟩
    · rcases hs : r.chaosExperimentHandler.SaveChaosExperiment ctx request projectID s1
        with ⟨⟨v, _ | e⟩, s2⟩ <;>
      simp [Operation.run, Operation.projectID, Operation.rule, Operation.nilRequest,
        mutationResolver.SaveChaosExperiment, World.call_eq, World.fresh, logrus.Info,
        logrus.Error, ha, hs, Call.isAuth, Call.isStore, Call.isStoreMutation, Call.isDispatch]
    · simp [Operation.run, Operation.projectID, Operation.rule, Operation.nilRequest,
        mutationResolver.SaveChaosExperiment, World.call_eq, World.fresh, logrus.Info, ha]
  | UpdateChaosExperiment request projectID =>
    cases request with
    | none =>
      simp [Operation.run, Operation.nilRequest, Outcome.map,
        mutationResolver.UpdateChaosExperiment, World.fresh]
    | some request =>
      rcases ha : r.ValidateRole ctx projectID
        (r.MutationRbacRules authorization.RoleQuery.ReRunChaosWorkFlow) r.InvitationAccepted s
        with ⟨_ | e, s1⟩
      · rcases hs : r.chaosExperimentHandler.UpdateChaosExperiment ctx request projectID s1
          with ⟨⟨v, _ | e⟩, s2⟩ <;>
        simp [Operation.run, Operation.projectID, Operation.rule, Operation.nilRequest,
          mutationResolver.UpdateChaosExperiment, World.call_eq, World.fresh, logrus.Info,
          logrus.Error, ha, hs, Call.isAuth, Call.isStore, Call.isStoreMutation,
          Call.isDispatch]
      · simp [Operation.run, Operation.projectID, Operation.rule, Operation.nilRequest,
          mutationResolver.UpdateChaosExperiment, World.call_eq, World.fresh, logrus.Info, ha]
  | DeleteChaosExperiment experimentID experimentRunID projectID =>
    rcases ha : r.ValidateRole ctx projectID
      (r.MutationRbacRules authorization.RoleQuery.DeleteChaosWorkflow) r.InvitationAccepted s
      with ⟨_ | e, s1⟩
    · rcases hs : r.chaosExperimentHandler.DeleteChaosExperiment ctx projectID experimentID
        experimentRunID s1 with ⟨⟨v, _ | e⟩, s2⟩ <;>
      simp [Operation.run, Operation.projectID, Operation.rule, Operation.nilRequest,
        mutationResolver.DeleteChaosExperiment, World.call_eq, World.fresh, logrus.Info,
        logrus.Error, ha, hs, Call.isAuth, Call.isStore, Call.isStoreMutation, Call.isDispatch]
    · simp [Operation.run, Operation.projectID, Operation.rule, Operation.nilRequest,
        mutationResolver.DeleteChaosExperiment, World.call_eq, World.fresh, logrus.Info, ha]
  | UpdateCronExperimentState experimentID disable projectID =>
    rcases ha : r.ValidateRole ctx projectID
      (r.MutationRbacRules authorization.RoleQuery.UpdateChaosWorkflow) r.InvitationAccepted s
      with ⟨_ | e, s1⟩
    · rcases hs : r.chaosExperimentHandler.UpdateCronExperimentState ctx experimentID disable
        projectID s1 with ⟨⟨v, _ | e⟩, s2⟩ <;>
      simp [Operation.run, Operation.projectID, Operation.rule, Operation.nilRequest,
        mutationResolver.UpdateCronExperimentState, World.call_eq, World.fresh, logrus.Info,
        logrus.Error, ha, hs, Call.isAuth, Call.isStore, Call.isStoreMutation, Call.isDispatch]
    · simp [Operation.run, Operation.projectID, Operation.rule, Operation.nilRequest,
        mutationResolver.UpdateCronExperimentState, World.call_eq, World.fresh, logrus.Info, ha]
  | GetExperiment projectID experimentID =>
    rcases ha : r.ValidateRole ctx projectID
      (r.MutationRbacRules authorization.RoleQuery.ListWorkflow) r.InvitationAccepted s
      with ⟨_ | e, s1⟩
    · rcases hs : r.chaosExperimentHandler.GetExperiment ctx projectID experimentID s1
        with ⟨⟨v, _ | e⟩, s2⟩ <;>
      simp [Operation.run, Operation.projectID, Operation.rule, Operation.nilRequest,
        queryResolver.GetExperiment, World.call_eq, World.fresh, logrus.Info,
        logrus.Error, ha, hs, Call.isAuth, Call.isStore, Call.isStoreMutation,
        Call.isStoreRead, Call.isDispatch]
    · simp [Operation.run, Operation.projectID, Operation.rule, Operation.nilRequest,
        queryResolver.GetExperiment, World.call_eq, World.fresh, logrus.Info, ha]
  | ListExperiment projectID request =>
    rcases ha : r.ValidateRole ctx projectID
      (r.MutationRbacRules authorization.RoleQuery.ListWorkflow) r.InvitationAccepted s
      with ⟨_ | e, s1⟩
    · rcases hs : r.chaosExperimentHandler.ListExperiment projectID request s1
        with ⟨⟨v, _ | e⟩, s2⟩ <;>
      simp [Operation.run, Operation.projectID, Operation.rule, Operation.nilRequest,
        queryResolver.ListExperiment, World.call_eq, World.fresh, logrus.Info,
        logrus.Error, ha, hs, Call.isAuth, Call.isStore, Call.isStoreMutation,
        Call.isStoreRead, Call.isDispatch]
    · simp [Operation.run, Operation.projectID, Operation.rule, Operation.nilRequest,
        queryResolver.ListExperiment, World.call_eq, World.fresh, logrus.Info, ha]
  | GetExperimentStats projectID =>
    rcases ha : r.ValidateRole ctx projectID
      (r.MutationRbacRules authorization.RoleQuery.ListWorkflow) r.InvitationAccepted s
      with ⟨_ | e, s1⟩
    · rcases hs : r.chaosExperimentHandler.GetExperimentStats ctx projectID s1
        with ⟨⟨v, _ | e⟩, s2⟩ <;>
      simp [Operation.run, Operation.projectID, Operation.rule, Operation.nilRequest,
        queryResolver.GetExperimentStats, World.call_eq, World.fresh, logrus.Info,
        logrus.Error, ha, hs, Call.isAuth, Call.isStore, Call.isStoreMutation,
        Call.isStoreRead, Call.isDispatch]
    · simp [Operation.run, Operation.projectID, Operation.rule, Operation.nilRequest,
        queryResolver.GetExperimentStats, World.call_eq, World.fresh, logrus.Info, ha]

theorem create_run_calls {σ : Type} (r : Resolver σ) (ctx : context.Context)
    (request : model.ChaosExperimentRequest) (projectID : String) (s : σ) :
    (∃ e, (mutationResolver.CreateChaosExperiment r ctx request projectID
        (World.fresh s)).2.calls =
      [Call.ValidateRole projectID authorization.RoleQuery.CreateEnvironment
        r.InvitationAccepted (some e)]) ∨
    (∃ o, (mutationResolver.CreateChaosExperiment r ctx request projectID
        (World.fresh s)).2.calls =
      [Call.ValidateRole projectID authorization.RoleQuery.CreateEnvironment
        r.InvitationAccepted none,
       Call.CreateChaosExperiment request projectID o]) ∨
    (∃ ui d g, (mutationResolver.CreateChaosExperiment r ctx request projectID
        (World.fresh s)).2.calls =
      [Call.ValidateRole projectID authorization.RoleQuery.CreateEnvironment
        r.InvitationAccepted none,
       Call.CreateChaosExperiment request projectID (some ui, none),
       Call.GetDBExperiment
         [("experiment_id", bson.Value.str ui.ExperimentID),
          ("is_removed", bson.Value.bool false)] (d, some g)]) ∨
    (∃ ui d c,
      (mutationResolver.CreateChaosExperiment r ctx request projectID
        (World.fresh s)).2.calls =
      [Call.ValidateRole projectID authorization.RoleQuery.CreateEnvironment
        r.InvitationAccepted none,
       Call.CreateChaosExperiment request projectID (some ui, none),
       Call.GetDBExperiment
         [("experiment_id", bson.Value.str ui.ExperimentID),
          ("is_removed", bson.Value.bool false)] (d, none),
       c] ∧ c.isDispatch = true) := by
  rcases ha : r.ValidateRole ctx projectID
    (r.MutationRbacRules authorization.RoleQuery.CreateEnvironment) r.InvitationAccepted s
    with ⟨_ | e, s1⟩
  · rcases hc : r.chaosExperimentHandler.CreateChaosExperiment ctx request projectID s1
      with ⟨⟨⟨v, _ | e⟩, left⟩, s2⟩
    · by_cases hrun : left.RunExperiment = some true
      · cases v with
        | none =>
          simp [mutationResolver.CreateChaosExperiment, World.call_eq, World.fresh,
            logrus.Info, ha, hc, hrun]
        | some ui =>
          rcases hg : r.chaosExperimentHandler.GetDBExperiment
            [("experiment_id", bson.Value.str ui.ExperimentID),
             ("is_removed", bson.Value.bool false)] s2 with ⟨⟨d, _ | g⟩, s3⟩
          · by_cases hcron : d.CronSyntax = ""
            · rcases hd : r.chaosExperimentRunHandler.RunChaosWorkFlow ctx projectID d s3
                with ⟨⟨x, y⟩, s4⟩
              refine Or.inr (Or.inr (Or.inr
                ⟨ui, d, Call.RunChaosWorkFlow projectID d (x, y), ?_, rfl⟩))
              cases y <;>
              simp [mutationResolver.CreateChaosExperiment, World.call_eq, World.fresh,
                logrus.Info, logrus.Error, ha, hc, hrun, hg, hcron, hd]
            · rcases hd : r.chaosExperimentRunHandler.RunCronExperiment ctx projectID d s3
                with ⟨y, s4⟩
              refine Or.inr (Or.inr (Or.inr
                ⟨ui, d, Call.RunCronExperiment projectID d y, ?_, rfl⟩))
              cases y <;>
              simp [mutationResolver.CreateChaosExperiment, World.call_eq, World.fresh,
                logrus.Info, logrus.Error, ha, hc, hrun, hg, hcron, hd]
          · simp [mutationResolver.CreateChaosExperiment, World.call_eq, World.fresh,
              logrus.Info, ha, hc, hrun, hg]
      · simp [mutationResolver.CreateChaosExperiment, World.call_eq, World.fresh,
          logrus.Info, ha, hc, hrun]
    · simp [mutationResolver.CreateChaosExperiment, World.call_eq, World.fresh,
        logrus.Info, ha, hc]
  · simp [mutationResolver.CreateChaosExperiment, World.call_eq, World.fresh,
      logrus.Info, ha]

theorem nil_request_calls {σ : Type} (r : Resolver σ) (ctx : context.Context)
    (op : Operation) (s : σ) (hnil : op.nilRequest = true) :
    (op.run r ctx (World.fresh s)).2.calls = [] := by
  cases op with
  | UpdateChaosExperiment request projectID =>
    cases request with
    | none => simp [Operation.run, mutationResolver.UpdateChaosExperiment, World.fresh]
    | some request => simp [Operation.nilRequest] at hnil
  | _ => simp [Operation.nilRequest] at hnil

theorem not_nil_request_of_calls {σ : Type} (r : Resolver σ) (ctx : context.Context)
    (op : Operation) (s : σ) (h : (op.run r ctx (World.fresh s)).2.calls ≠ []) :
    op.nilRequest = false := by
  cases hq : op.nilRequest
  · rfl
  · exact absurd (nil_request_calls r ctx op s hq) h

theorem phase_pos_of_not_auth (c : Call) (h : c.isAuth = false) : 0 < c.phase := by
  unfold Call.phase
  rw [h]
  simp only [Bool.false_eq_true, if_false]
  split
  · omega
  · split <;> omega

theorem phase_of_dispatch (c : Call) (h : c.isDispatch = true) : c.phase = 3 := by
  cases c <;> simp_all [Call.isDispatch, Call.phase, Call.isAuth, Call.isStoreMutation,
    Call.isStoreRead]

theorem not_mutation_of_dispatch (c : Call) (h : c.isDispatch = true) :
    c.isStoreMutation = false := by
  cases c <;> simp_all [Call.isDispatch, Call.isStoreMutation]

theorem not_auth_of_dispatch (c : Call) (h : c.isDispatch = true) : c.isAuth = false := by
  cases c <;> simp_all [Call.isDispatch, Call.isAuth]

/-! ## Execution is triggered by create only -/

/-- C7: an operation other than `CreateChaosExperiment` (save, update, delete,
cron-state update, get, list, stats) makes no call to `RunChaosWorkFlow` and
no call to `RunCronExperiment`, whatever its input (a nil update request
included) and whatever the authorization check and the experiment handler
return. -/
theorem only_create_dispatches {σ : Type} (r : Resolver σ) (ctx : context.Context)
    (op : Operation) (s : σ) (hop : op.isCreate = false) :
    ∀ c ∈ (op.run r ctx (World.fresh s)).2.calls, c.isDispatch = false := by
  rcases simple_run_calls r ctx op s hop with ⟨_, _, h⟩ | ⟨e, h⟩ | ⟨c, h, _, _, hd⟩
  · rw [h]
    simp
  · rw [h]
    simp [Call.isDispatch]
  · rw [h]
    intro x hx
    simp only [List.mem_cons, List.mem_singleton, List.not_mem_nil, or_false] at hx
    rcases hx with rfl | rfl
    · rfl
    · exact hd

/-- Witness for C7: an owner updating a recurring experiment on the in-memory
backend reaches the store and no dispatcher. -/
theorem only_create_dispatches_witness :
    (Operation.UpdateChaosExperiment (some (runNow "0 * * * *")) "p1").isCreate = false ∧
    ∀ c ∈ ((Operation.UpdateChaosExperiment (some (runNow "0 * * * *")) "p1").run
        (memResolver Faults.none) owner (World.fresh Backend.empty)).2.calls,
      c.isDispatch = false :=
  ⟨by rfl, only_create_dispatches (memResolver Faults.none) owner
    (Operation.UpdateChaosExperiment (some (runNow "0 * * * *")) "p1") Backend.empty
    (by rfl)⟩

/-! ## Order and multiplicity of collaborator calls -/

/-- C8: for every operation and every behaviour of the collaborators, the
calls of one request start with the authorization check of that operation,
unless no call is made at all, which happens exactly on an
`UpdateChaosExperiment` whose request pointer is nil (it panics at line 95);
there is at most one authorization check, at most one store write and at most
one run-handler call; the calls come in the order check, store write, store
read, run-handler call; every call that is followed by another call returned a
nil error, so nothing is called again after a failure; and a run-handler call
occurs only in `CreateChaosExperiment`, as the fourth call, after a granted
check, a store create that returned a response and a nil error, and a
re-fetch of that response's experiment that returned a nil error. -/
theorem calls_once_each_in_order {σ : Type} (r : Resolver σ) (ctx : context.Context)
    (op : Operation) (s : σ) :
    ((op.nilRequest = true ∧ (op.run r ctx (World.fresh s)).1 = Outcome.panicked ∧
        (op.run r ctx (World.fresh s)).2.calls = []) ∨
      (op.nilRequest = false ∧
        ∃ a, (op.run r ctx (World.fresh s)).2.calls.head? =
          some (Call.ValidateRole op.projectID op.rule r.InvitationAccepted a))) ∧
    (op.run r ctx (World.fresh s)).2.calls.countP Call.isAuth ≤ 1 ∧
    (op.run r ctx (World.fresh s)).2.calls.countP Call.isStoreMutation ≤ 1 ∧
    (op.run r ctx (World.fresh s)).2.calls.countP Call.isDispatch ≤ 1 ∧
    ((op.run r ctx (World.fresh s)).2.calls.map Call.phase).Pairwise (· < ·) ∧
    (∀ c ∈ (op.run r ctx (World.fresh s)).2.calls.dropLast, c.failed = false) ∧
    (∀ c ∈ (op.run r ctx (World.fresh s)).2.calls, c.isDispatch = true →
      ∃ request ui d, op = Operation.CreateChaosExperiment request op.projectID ∧
        (op.run r ctx (World.fresh s)).2.calls =
          [Call.ValidateRole op.projectID op.rule r.InvitationAccepted none,
           Call.CreateChaosExperiment request op.projectID (some ui, none),
           Call.GetDBExperiment
             [("experiment_id", bson.Value.str ui.ExperimentID),
              ("is_removed", bson.Value.bool false)] (d, none),
           c]) := by
  by_cases hop : op.isCreate = false
  · rcases simple_run_calls r ctx op s hop with ⟨hn, hp, h⟩ | ⟨e, h⟩ | ⟨c, h, ha, _, hd⟩
    · refine ⟨Or.inl ⟨hn, hp, h⟩, ?_⟩
      rw [h]
      simp
    · have hn := not_nil_request_of_calls r ctx op s (by rw [h]; simp)
      rw [h]
      simp [Call.isAuth, Call.isStoreMutation, Call.isDispatch, Call.phase, hn]
    · have hn := not_nil_request_of_calls r ctx op s (by rw [h]; simp)
      rw [h]
      have hp := phase_pos_of_not_auth c ha
      refine ⟨Or.inr ⟨hn, none, rfl⟩, ?_, ?_, ?_, ?_, ?_, ?_⟩
      · simp only [List.countP_cons, List.countP_nil, ha]
        simp [Call.isAuth]
      · cases hm : c.isStoreMutation <;>
          simp only [List.countP_cons, List.countP_nil, hm] <;> simp [Call.isStoreMutation]
      · simp only [List.countP_cons, List.countP_nil, hd]
        simp [Call.isDispatch]
      · simp only [List.map_cons, List.map_nil, List.pairwise_cons]
        simpa [Call.phase, Call.isAuth] using hp
      · simp [Call.failed, Call.err]
      · intro x hx hdx
        simp only [List.mem_cons, List.mem_singleton, List.not_mem_nil, or_false] at hx
        rcases hx with rfl | rfl
        · simp [Call.isDispatch] at hdx
        · rw [hd] at hdx
          simp at hdx
  · cases op with
    | CreateChaosExperiment request projectID =>
      simp only [Operation.run, Operation.projectID, Operation.rule]
      rcases create_run_calls r ctx request projectID s with
        ⟨e, h⟩ | ⟨o, h⟩ | ⟨ui, d, g, h⟩ | ⟨ui, d, c, h, hd⟩
      · rw [h]
        simp [Call.isAuth, Call.isStoreMutation, Call.isDispatch, Call.phase,
          Operation.nilRequest]
      · rw [h]
        simp [Call.isAuth, Call.isStoreMutation, Call.isDispatch, Call.phase, Call.failed,
          Call.err, List.countP_cons, Operation.nilRequest]
      · rw [h]
        simp [Call.isAuth, Call.isStoreMutation, Call.isStoreRead, Call.isDispatch,
          Call.phase, Call.failed, Call.err, List.countP_cons, Operation.nilRequest]
      · rw [h]
        have h3 := phase_of_dispatch c hd
        have hm := not_mutation_of_dispatch c hd
        have ha := not_auth_of_dispatch c hd
        refine ⟨Or.inr ⟨rfl, none, rfl⟩, ?_, ?_, ?_, ?_, ?_, ?_⟩
        · simp only [List.countP_cons, List.countP_nil, ha]
          simp [Call.isAuth]
        · simp only [List.countP_cons, List.countP_nil, hm]
          simp [Call.isStoreMutation]
        · simp only [List.countP_cons, List.countP_nil, hd]
          simp [Call.isDispatch]
        · simp only [List.map_cons, List.map_nil, List.pairwise_cons, h3]
          simp [Call.phase, Call.isAuth, Call.isStoreMutation, Call.isStoreRead]
        · simp [Call.failed, Call.err]
        · intro c2 hc2 hd2
          refine ⟨request, ui, d, rfl, ?_⟩
          simp only [List.mem_cons, List.mem_singleton, List.not_mem_nil, or_false] at hc2
          rcases hc2 with rfl | rfl | rfl | rfl
          · simp [Call.isDispatch] at hd2
          · simp [Call.isDispatch] at hd2
          · simp [Call.isDispatch] at hd2
          · rfl
    | SaveChaosExperiment _ _ => simp [Operation.isCreate] at hop
    | UpdateChaosExperiment _ _ => simp [Operation.isCreate] at hop
    | DeleteChaosExperiment _ _ _ => simp [Operation.isCreate] at hop
    | UpdateCronExperimentState _ _ _ => simp [Operation.isCreate] at hop
    | GetExperiment _ _ => simp [Operation.isCreate] at hop
    | ListExperiment _ _ => simp [Operation.isCreate] at hop
    | GetExperimentStats _ => simp [Operation.isCreate] at hop

/-! ## Store failures -/

/-- C6, as the code has it: when authorization is granted and the operation's
experiment-handler call fails with cause `e`, `CreateChaosExperiment` returns a
nil response and `errors.New` of "could not create experiment, error: "
followed by the text of `e`, an error other than `e` that names no
identifier; each of the other seven operations returns its zero result and `e`
itself; in all eight no re-fetch and no run-handler call is made, and the
collaborator state is the one the failed handler call left. -/
theorem store_failure_wrapped_by_create_only {σ : Type} (r : Resolver σ)
    (ctx : context.Context) (op : Operation) (s s1 s2 : σ) (v : Reply) (e : GoError)
    (hauth : op.authCall r ctx s = some (none, s1))
    (hstore : op.storeCall r ctx s1 = some ((v, some e), s2)) :
    (op.isCreate = true →
      (op.run r ctx (World.fresh s)).1 = Outcome.returned op.zero
        (some (errors.New ("could not create experiment, error: " ++ e.Error))) ∧
      errors.New ("could not create experiment, error: " ++ e.Error) ≠ e) ∧
    (op.isCreate = false →
      (op.run r ctx (World.fresh s)).1 = Outcome.returned op.zero (some e)) ∧
    (∀ c ∈ (op.run r ctx (World.fresh s)).2.calls,
      c.isDispatch = false ∧ ∀ q o, c ≠ Call.GetDBExperiment q o) ∧
    (op.run r ctx (World.fresh s)).2.st = s2 := by
  have hne : errors.New ("could not create experiment, error: " ++ e.Error) ≠ e :=
    errors_New_wrap_ne "could not create experiment, error: " (by decide) e
  cases op with
  | CreateChaosExperiment request projectID =>
    simp only [Operation.authCall, Operation.storeCall, Operation.projectID,
      Operation.rule, Operation.nilRequest, Bool.false_eq_true, if_false, Option.some.injEq]
      at hauth hstore
    rcases hx : r.chaosExperimentHandler.CreateChaosExperiment ctx request projectID s1
      with ⟨⟨⟨x, y⟩, left⟩, z⟩
    rw [hx] at hstore
    simp only [Prod.mk.injEq] at hstore
    obtain ⟨⟨_, rfl⟩, rfl⟩ := hstore
    simp [Operation.run, Operation.zero, Operation.isCreate, Outcome.map, mutationResolver.CreateChaosExperiment,
      World.call_eq, World.fresh, logrus.Info, logrus.Error, Call.isDispatch, hauth, hx, hne]
  | SaveChaosExperiment request projectID =>
    simp only [Operation.authCall, Operation.storeCall, Operation.projectID,
      Operation.rule, Operation.nilRequest, Bool.false_eq_true, if_false, Option.some.injEq]
      at hauth hstore
    rcases hx : r.chaosExperimentHandler.SaveChaosExperiment ctx request projectID s1
      with ⟨⟨x, y⟩, z⟩
    rw [hx] at hstore
    simp only [Prod.mk.injEq] at hstore
    obtain ⟨⟨_, rfl⟩, rfl⟩ := hstore
    simp [Operation.run, Operation.zero, Operation.isCreate, Outcome.map, mutationResolver.SaveChaosExperiment,
      World.call_eq, World.fresh, logrus.Info, logrus.Error, Call.isDispatch, hauth, hx]
  | UpdateChaosExperiment request projectID =>
    cases request with
    | none => simp [Operation.authCall, Operation.nilRequest] at hauth
    | some request =>
      simp only [Operation.authCall, Operation.storeCall, Operation.projectID,
        Operation.rule, Operation.nilRequest, Bool.false_eq_true, if_false, Option.some.injEq]
        at hauth hstore
      rcases hx : r.chaosExperimentHandler.UpdateChaosExperiment ctx request projectID s1
        with ⟨⟨x, y⟩, z⟩
      rw [hx] at hstore
      simp only [Prod.mk.injEq] at hstore
      obtain ⟨⟨_, rfl⟩, rfl⟩ := hstore
      simp [Operation.run, Operation.zero, Operation.isCreate, Outcome.map, mutationResolver.UpdateChaosExperiment,
        World.call_eq, World.fresh, logrus.Info, logrus.Error, Call.isDispatch, hauth, hx]
  | DeleteChaosExperiment experimentID experimentRunID projectID =>
    simp only [Operation.authCall, Operation.storeCall, Operation.projectID,
      Operation.rule, Operation.nilRequest, Bool.false_eq_true, if_false, Option.some.injEq]
      at hauth hstore
    rcases hx : r.chaosExperimentHandler.DeleteChaosExperiment ctx projectID experimentID
      experimentRunID s1
      with ⟨⟨x, y⟩, z⟩
    rw [hx] at hstore
    simp only [Prod.mk.injEq] at hstore
    obtain ⟨⟨_, rfl⟩, rfl⟩ := hstore
    simp [Operation.run, Operation.zero, Operation.isCreate, Outcome.map, mutationResolver.DeleteChaosExperiment,
      World.call_eq, World.fresh, logrus.Info, logrus.Error, Call.isDispatch, hauth, hx]
  | UpdateCronExperimentState experimentID disable projectID =>
    simp only [Operation.authCall, Operation.storeCall, Operation.projectID,
      Operation.rule, Operation.nilRequest, Bool.false_eq_true, if_false, Option.some.injEq]
      at hauth hstore
    rcases hx : r.chaosExperimentHandler.UpdateCronExperimentState ctx experimentID disable
      projectID s1
      with ⟨⟨x, y⟩, z⟩
    rw [hx] at hstore
    simp only [Prod.mk.injEq] at hstore
    obtain ⟨⟨_, rfl⟩, rfl⟩ := hstore
    simp [Operation.run, Operation.zero, Operation.isCreate, Outcome.map, mutationResolver.UpdateCronExperimentState,
      World.call_eq, World.fresh, logrus.Info, logrus.Error, Call.isDispatch, hauth, hx]
  | GetExperiment projectID experimentID =>
    simp only [Operation.authCall, Operation.storeCall, Operation.projectID,
      Operation.rule, Operation.nilRequest, Bool.false_eq_true, if_false, Option.some.injEq]
      at hauth hstore
    rcases hx : r.chaosExperimentHandler.GetExperiment ctx projectID experimentID s1
      with ⟨⟨x, y⟩, z⟩
    rw [hx] at hstore
    simp only [Prod.mk.injEq] at hstore
    obtain ⟨⟨_, rfl⟩, rfl⟩ := hstore
    simp [Operation.run, Operation.zero, Operation.isCreate, Outcome.map, queryResolver.GetExperiment,
      World.call_eq, World.fresh, logrus.Info, logrus.Error, Call.isDispatch, hauth, hx]
  | ListExperiment projectID request =>
    simp only [Operation.authCall, Operation.storeCall, Operation.projectID,
      Operation.rule, Operation.nilRequest, Bool.false_eq_true, if_false, Option.some.injEq]
      at hauth hstore
    rcases hx : r.chaosExperimentHandler.ListExperiment projectID request s1
      with ⟨⟨x, y⟩, z⟩
    rw [hx] at hstore
    simp only [Prod.mk.injEq] at hstore
    obtain ⟨⟨_, rfl⟩, rfl⟩ := hstore
    simp [Operation.run, Operation.zero, Operation.isCreate, Outcome.map, queryResolver.ListExperiment,
      World.call_eq, World.fresh, logrus.Info, logrus.Error, Call.isDispatch, hauth, hx]
  | GetExperimentStats projectID =>
    simp only [Operation.authCall, Operation.storeCall, Operation.projectID,
      Operation.rule, Operation.nilRequest, Bool.false_eq_true, if_false, Option.some.injEq]
      at hauth hstore
    rcases hx : r.chaosExperimentHandler.GetExperimentStats ctx projectID s1
      with ⟨⟨x, y⟩, z⟩
    rw [hx] at hstore
    simp only [Prod.mk.injEq] at hstore
    obtain ⟨⟨_, rfl⟩, rfl⟩ := hstore
    simp [Operation.run, Operation.zero, Operation.isCreate, Outcome.map, queryResolver.GetExperimentStats,
      World.call_eq, World.fresh, logrus.Info, logrus.Error, Call.isDispatch, hauth, hx]

/-- Witness for C6 as amended: on the in-memory backend with a failing store,
deleting "e1" returns false and the store error itself. -/
theorem store_failure_wrapped_by_create_only_witness :
    (Operation.DeleteChaosExperiment "e1" none "p1").isCreate = false ∧
    ((Operation.DeleteChaosExperiment "e1" none "p1").run
        (memResolver ⟨none, none, some boom, none⟩) owner (World.fresh Backend.empty)).1 =
      Outcome.returned (Reply.flag false) (some boom) :=
  have h := store_failure_wrapped_by_create_only (memResolver ⟨none, none, some boom, none⟩)
    owner (Operation.DeleteChaosExperiment "e1" none "p1") Backend.empty Backend.empty
    Backend.empty (Reply.flag false) boom (by rfl) (by rfl)
  ⟨by rfl, h.2.1 (by rfl)⟩

/-- C6 fails as stated: on the in-memory backend whose store fails with
"boom", an owner saving draft "e1" of project "p1" gets back the store error
itself, whose text is "boom" with no operation or identifier in front. -/
theorem save_store_failure_returned_unwrapped :
    (mutationResolver.SaveChaosExperiment (memResolver ⟨none, none, some boom, none⟩) owner
        ⟨"e1", "draft", "kind: Workflow"⟩ "p1" (World.fresh Backend.empty)).1 =
      Outcome.returned "" (some boom) ∧
    (mutationResolver.SaveChaosExperiment (memResolver ⟨none, none, some boom, none⟩) owner
        ⟨"e1", "draft", "kind: Workflow"⟩ "p1" (World.fresh Backend.empty)).2.calls =
      [Call.ValidateRole "p1" authorization.RoleQuery.CreateChaosWorkFlow "Accepted" none,
       Call.SaveChaosExperiment ⟨"e1", "draft", "kind: Workflow"⟩ "p1" ("", some boom)] ∧
    boom.Error = "boom" := by
  refine ⟨?_, ?_, ?_⟩ <;> rfl

/-! ## Telling "never persisted" from "persisted but not started" -/

/-- C5 fails as stated: on the in-memory backend, a create whose store create
fails with "boom" (nothing persisted) and a create that persists "e1" and
whose dispatcher then fails with an error reading "could not create
experiment, error: boom" return the same error. -/
theorem create_failure_stage_not_told_apart :
    (mutationResolver.CreateChaosExperiment (memResolver ⟨some boom, none, none, none⟩) owner
        (runNow "") "p1" (World.fresh Backend.empty)).2.calls =
      [Call.ValidateRole "p1" authorization.RoleQuery.CreateEnvironment "Accepted" none,
       Call.CreateChaosExperiment (runNow "") "p1" (none, some boom)] ∧
    (mutationResolver.CreateChaosExperiment (memResolver ⟨some boom, none, none, none⟩) owner
        (runNow "") "p1" (World.fresh Backend.empty)).2.st = Backend.empty ∧
    (mutationResolver.CreateChaosExperiment
        (memResolver ⟨none, none, none,
          some (errors.New "could not create experiment, error: boom")⟩) owner
        (runNow "") "p1" (World.fresh Backend.empty)).2.calls =
      [Call.ValidateRole "p1" authorization.RoleQuery.CreateEnvironment "Accepted" none,
       Call.CreateChaosExperiment (runNow "") "p1" (some ⟨"e1", "pod-delete", ""⟩, none),
       Call.GetDBExperiment
         [("experiment_id", bson.Value.str "e1"), ("is_removed", bson.Value.bool false)]
         (⟨"e1", "p1", "", false⟩, none),
       Call.RunChaosWorkFlow "p1" ⟨"e1", "p1", "", false⟩
         (none, some (errors.New "could not create experiment, error: boom"))] ∧
    (mutationResolver.CreateChaosExperiment
        (memResolver ⟨none, none, none,
          some (errors.New "could not create experiment, error: boom")⟩) owner
        (runNow "") "p1" (World.fresh Backend.empty)).2.st =
      ⟨[⟨"e1", "p1", "", false⟩], [], []⟩ ∧
    (mutationResolver.CreateChaosExperiment (memResolver ⟨some boom, none, none, none⟩) owner
        (runNow "") "p1" (World.fresh Backend.empty)).1 =
      (mutationResolver.CreateChaosExperiment
        (memResolver ⟨none, none, none,
          some (errors.New "could not create experiment, error: boom")⟩) owner
        (runNow "") "p1" (World.fresh Backend.empty)).1 := by
  refine ⟨?_, ?_, ?_, ?_, ?_⟩ <;> rfl

/-- C5, as the code has it: take one create whose store create fails with
cause `a`, and one create whose store create succeeds, whose `RunExperiment`
is true in the request as the store handler left it (`leftB`, what line 35
reads), whose re-fetch succeeds and whose run-handler call fails with `b`. The first returns
`errors.New` of "could not create experiment, error: " followed by the text of
`a`, the second returns `b` itself, and the two returned errors are different
exactly when `b` is not that very error. -/
theorem create_failure_errors_differ_iff {σ τ : Type}
    (rA : Resolver σ) (ctxA : context.Context) (requestA : model.ChaosExperimentRequest)
    (projectA : String) (s s1 s2 : σ) (vA : Option model.ChaosExperimentResponse)
    (leftA : model.ChaosExperimentRequest) (a : GoError)
    (hauthA : rA.ValidateRole ctxA projectA
      (rA.MutationRbacRules authorization.RoleQuery.CreateEnvironment) rA.InvitationAccepted s
        = (none, s1))
    (hcreateA : rA.chaosExperimentHandler.CreateChaosExperiment ctxA requestA projectA s1
      = (((vA, some a), leftA), s2))
    (rB : Resolver τ) (ctxB : context.Context) (requestB : model.ChaosExperimentRequest)
    (projectB : String) (t t1 t2 t3 : τ) (ui : model.ChaosExperimentResponse)
    (leftB : model.ChaosExperimentRequest) (d : StoredExperiment) (b : GoError)
    (hrunB : leftB.RunExperiment = some true)
    (hauthB : rB.ValidateRole ctxB projectB
      (rB.MutationRbacRules authorization.RoleQuery.CreateEnvironment) rB.InvitationAccepted t
        = (none, t1))
    (hcreateB : rB.chaosExperimentHandler.CreateChaosExperiment ctxB requestB projectB t1
      = (((some ui, none), leftB), t2))
    (hgetB : rB.chaosExperimentHandler.GetDBExperiment
      [("experiment_id", bson.Value.str ui.ExperimentID), ("is_removed", bson.Value.bool false)]
      t2 = ((d, none), t3))
    (hfailB : (if d.CronSyntax ≠ "" then
        (rB.chaosExperimentRunHandler.RunCronExperiment ctxB projectB d t3).1
      else (rB.chaosExperimentRunHandler.RunChaosWorkFlow ctxB projectB d t3).1.2) = some b) :
    ∃ ea eb,
      (mutationResolver.CreateChaosExperiment rA ctxA requestA projectA (World.fresh s)).1 =
        Outcome.returned none (some ea) ∧
      (mutationResolver.CreateChaosExperiment rB ctxB requestB projectB (World.fresh t)).1 =
        Outcome.returned none (some eb) ∧
      ea = errors.New ("could not create experiment, error: " ++ a.Error) ∧
      eb = b ∧
      (ea ≠ eb ↔ b ≠ errors.New ("could not create experiment, error: " ++ a.Error)) := by
  refine ⟨errors.New ("could not create experiment, error: " ++ a.Error), b, ?_, ?_, rfl, rfl,
    ?_⟩
  · simp [mutationResolver.CreateChaosExperiment, World.call_eq, World.fresh, logrus.Info,
      hauthA, hcreateA]
  · by_cases hcron : d.CronSyntax = ""
    · rcases hd : rB.chaosExperimentRunHandler.RunChaosWorkFlow ctxB projectB d t3 with
        ⟨⟨x, y⟩, t4⟩
      simp only [hcron, ne_eq, not_true_eq_false, if_false, hd] at hfailB
      subst hfailB
      simp [mutationResolver.CreateChaosExperiment, World.call_eq, World.fresh, logrus.Info,
        logrus.Error, hrunB, hauthB, hcreateB, hgetB, hcron, hd]
    · rcases hd : rB.chaosExperimentRunHandler.RunCronExperiment ctxB projectB d t3 with
        ⟨y, t4⟩
      simp only [hcron, ne_eq, not_false_eq_true, if_true, hd] at hfailB
      subst hfailB
      simp [mutationResolver.CreateChaosExperiment, World.call_eq, World.fresh, logrus.Info,
        logrus.Error, hrunB, hauthB, hcreateB, hgetB, hcron, hd]
  · constructor
    · intro h hb
      exact h hb.symm
    · intro h hb
      exact h hb.symm

/-- Witness for C5 as amended: on the in-memory backend, store create failing
with "boom" against dispatcher failing with "boom". -/
theorem create_failure_errors_differ_iff_witness :
    ∃ ea eb,
      (mutationResolver.CreateChaosExperiment (memResolver ⟨some boom, none, none, none⟩)
        owner (runNow "") "p1" (World.fresh Backend.empty)).1 =
        Outcome.returned none (some ea) ∧
      (mutationResolver.CreateChaosExperiment (memResolver ⟨none, none, none, some boom⟩)
        owner (runNow "") "p1" (World.fresh Backend.empty)).1 =
        Outcome.returned none (some eb) ∧
      ea = errors.New ("could not create experiment, error: " ++ boom.Error) ∧
      eb = boom ∧
      (ea ≠ eb ↔ boom ≠ errors.New ("could not create experiment, error: " ++ boom.Error)) :=
  create_failure_errors_differ_iff
    (memResolver ⟨some boom, none, none, none⟩) owner (runNow "") "p1" Backend.empty
    Backend.empty Backend.empty none (runNow "") boom (by rfl) (by rfl)
    (memResolver ⟨none, none, none, some boom⟩) owner (runNow "") "p1" Backend.empty
    Backend.empty ⟨[⟨"e1", "p1", "", false⟩], [], []⟩ ⟨[⟨"e1", "p1", "", false⟩], [], []⟩
    ⟨"e1", "pod-delete", ""⟩ (runNow "") ⟨"e1", "p1", "", false⟩ boom
    (by rfl) (by rfl) (by rfl) (by rfl) (by rfl)

/-! ## Which table entry each check looks up -/

theorem create_checks_CreateEnvironment {σ : Type} (r : Resolver σ) (ctx : context.Context)
    (request : model.ChaosExperimentRequest) (projectID : String) (s : σ) :
    ∃ a, (mutationResolver.CreateChaosExperiment r ctx request projectID
        (World.fresh s)).2.calls.head? =
      some (Call.ValidateRole projectID authorization.RoleQuery.CreateEnvironment
        r.InvitationAccepted a) := by
  rcases create_run_calls r ctx request projectID s with
    ⟨e, h⟩ | ⟨o, h⟩ | ⟨ui, d, g, h⟩ | ⟨ui, d, c, h, _⟩ <;>
  · rw [h]
    exact ⟨_, rfl⟩

theorem simple_checks_own_rule {σ : Type} (r : Resolver σ) (ctx : context.Context)
    (op : Operation) (s : σ) (hop : op.isCreate = false) (hnil : op.nilRequest = false) :
    ∃ a, (op.run r ctx (World.fresh s)).2.calls.head? =
      some (Call.ValidateRole op.projectID op.rule r.InvitationAccepted a) := by
  rcases simple_run_calls r ctx op s hop with ⟨hn, _⟩ | ⟨e, h⟩ | ⟨c, h, _⟩
  · rw [hnil] at hn
    simp at hn
  · rw [h]
    exact ⟨_, rfl⟩
  · rw [h]
    exact ⟨_, rfl⟩

/-- C9, the code at the failing input: on the in-memory backend an owner's
`CreateChaosExperiment` on project "p1" is checked against the
`CreateEnvironment` entry of the role table, where `SaveChaosExperiment` is
checked against `CreateChaosWorkFlow`; and `UpdateChaosExperiment` is checked
against the `ReRunChaosWorkFlow` entry, where `UpdateCronExperimentState` is
checked against `UpdateChaosWorkflow`. Project and membership state are the
request's own and "Accepted" in all four. -/
theorem create_and_update_check_foreign_rule :
    (mutationResolver.CreateChaosExperiment (memResolver Faults.none) owner (keepOnly "") "p1"
        (World.fresh Backend.empty)).2.calls.head? =
      some (Call.ValidateRole "p1" authorization.RoleQuery.CreateEnvironment "Accepted" none) ∧
    (mutationResolver.SaveChaosExperiment (memResolver Faults.none) owner
        ⟨"e1", "draft", "kind: Workflow"⟩ "p1" (World.fresh Backend.empty)).2.calls.head? =
      some (Call.ValidateRole "p1" authorization.RoleQuery.CreateChaosWorkFlow "Accepted"
        none) ∧
    (mutationResolver.UpdateChaosExperiment (memResolver Faults.none) owner
        (some (keepOnly "")) "p1" (World.fresh Backend.empty)).2.calls.head? =
      some (Call.ValidateRole "p1" authorization.RoleQuery.ReRunChaosWorkFlow "Accepted"
        none) ∧
    (mutationResolver.UpdateCronExperimentState (memResolver Faults.none) owner "e1" true "p1"
        (World.fresh Backend.empty)).2.calls.head? =
      some (Call.ValidateRole "p1" authorization.RoleQuery.UpdateChaosWorkflow "Accepted"
        none) ∧
    authorization.RoleQuery.CreateEnvironment ≠ authorization.RoleQuery.CreateChaosWorkFlow ∧
    authorization.RoleQuery.ReRunChaosWorkFlow ≠ authorization.RoleQuery.UpdateChaosWorkflow := by
  refine ⟨?_, ?_, ?_, ?_, ?_, ?_⟩
  · rfl
  · rfl
  · rfl
  · rfl
  · decide
  · decide

end Litmus
